import Mathlib

/-!
Verification of the solarize_energy energy-management core against its
specification.  The C sources under src/ are shallowly embedded:

* C `double` is modelled as `ℚ` (exact rationals; every decimal literal of the
  source, e.g. `1.2`, becomes the exact rational `6/5`).  None of the verified
  properties hinges on binary floating-point rounding.
* C `time_t` is modelled as `Int`; calls to `time(NULL)` become an explicit
  `now : Int` argument (one time value per call, as the spec's concurrency
  model requires).
* C `bool` is `Bool`; fallible look-ups return `Option`.
* Function-local `static` variables (the `last_*` hysteresis flags of
  `battery_check_limits`) are lifted to explicit fields of the owning record,
  exactly as spec §9 prescribes for this re-architecture.
* The parallel arrays `loads[]` / `load_states[]` of `load_manager_t` are
  modelled as one list of pairs, indexed identically.
* Out-of-scope collaborator subsystems (PV, irrigation, EV) are type
  parameters of the controller together with their update functions; the
  controller code itself (controller.c) is embedded faithfully.
-/

set_option maxHeartbeats 1000000

set_option maxRecDepth 40000

namespace Solarize

/-! ## core.h: enums and measurement record -/

/-- load_priority_t is an ordered C enum; the source compares priorities as
plain ints (`(int)lm->loads[i].priority == priority`), so it is embedded as
`Int` with the named constants below. -/
def PRIORITY_CRITICAL : Int := 0

def PRIORITY_HIGH : Int := 1

def PRIORITY_MEDIUM : Int := 2

def PRIORITY_LOW : Int := 3

def PRIORITY_NON_ESSENTIAL : Int := 4

/-- load_state_t from loads.h. -/
inductive LoadState where
  | off
  | on
  | shed
  | deferred
  | fault
deriving DecidableEq, Repr

/-- system_mode_t from core.h. -/
inductive SystemMode where
  | normal
  | island
  | critical
  | maintenance
  | emergency
deriving DecidableEq, Repr

/-- soc_category_t from core.h. -/
inductive SocCategory where
  | critical
  | low
  | medium
  | high
  | full
deriving DecidableEq, Repr

/-- controller_mode_t from controller.h. -/
inductive CtrlMode where
  | auto
  | manual
  | testing
  | safe
deriving DecidableEq, Repr

/-- system_measurements_t from core.h. -/
structure Measurements where
  grid_power : ℚ
  grid_voltage : ℚ
  grid_frequency : ℚ
  pv_power_total : ℚ
  pv_voltage : List ℚ
  pv_current : List ℚ
  pv_strings_active : Nat
  battery_power : ℚ
  battery_voltage : ℚ
  battery_current : ℚ
  battery_soc : ℚ
  battery_temp : ℚ
  load_power_total : ℚ
  load_power_critical : ℚ
  load_power_deferrable : ℚ
  irrigation_power : ℚ
  ev_charging_power : ℚ
  timestamp : Int
deriving DecidableEq, Repr

/-- load_definition_t from core.h. -/
structure LoadDefinition where
  id : String
  rated_power : ℚ
  priority : Int
  is_deferrable : Bool
  is_sheddable : Bool
  min_on_time : ℚ
  min_off_time : ℚ
  last_state_change : Int
  current_state : Bool
deriving DecidableEq, Repr

/-! ## loads.c: the Load Shedding Engine -/

/-- load_manager_t from loads.h.  `loads` fuses the parallel arrays
`loads[MAX_CONTROLLABLE_LOADS]` and `load_states[MAX_CONTROLLABLE_LOADS]`
into one list of pairs; `load_count` is the list length. -/
structure LoadManager where
  loads : List (LoadDefinition × LoadState)
  priority_power : List ℚ
  priority_count : List Nat
  shedding_active : Bool
  shed_power_target : ℚ
  shedding_start_time : Int
  deferred_power : ℚ
  next_deferrable_start : Int
  total_energy_consumed : ℚ
  shed_event_count : Nat
  restart_event_count : Nat
  min_shed_duration : ℚ
  max_shed_duration : ℚ
  load_rotation_interval : ℚ
deriving DecidableEq, Repr

/-- loads_check_timing_constraints (loads.c:258-280).  The index-bound guard
of the C version is unrepresentable here because the load is passed by
value. -/
def loads_check_timing_constraints (load : LoadDefinition) (now : Int) : Bool :=
  let time_since_change : ℚ := ((now - load.last_state_change : Int) : ℚ)
  if load.current_state then
    if time_since_change < load.min_on_time then false else true
  else
    if time_since_change < load.min_off_time then false else true

/-- loads_can_shed_load (loads.c:345-368): available-power ceiling guard,
Critical-priority exclusion, sheddable flag, then timing. -/
def loads_can_shed_load (load : LoadDefinition) (available_power : ℚ) (now : Int) : Bool :=
  if available_power ≥ 40 then false
  else if load.priority = PRIORITY_CRITICAL then false
  else if load.is_sheddable = false then false
  else loads_check_timing_constraints load now

/-- loads_init (loads.c:12-52).  Only the first MAX_CONTROLLABLE_LOADS = 12
configured loads are copied; every copied load starts in state ON with
`current_state = false` and `last_state_change = now`, exactly as the C
does.  The per-priority aggregates mirror the two init loops. -/
def loads_init (config_loads : List LoadDefinition) (now : Int) : LoadManager :=
  let ls := (config_loads.take 12).map fun ld =>
    ({ ld with last_state_change := now, current_state := false }, LoadState.on)
  { loads := ls
    priority_power := (List.range 5).map fun p =>
      ((ls.filter fun x => x.1.priority = (p : Int)).foldl
        (fun a x => a + x.1.rated_power) 0)
    priority_count := (List.range 5).map fun p =>
      (ls.filter fun x => x.1.priority = (p : Int)).length
    shedding_active := true
    shed_power_target := 0
    shedding_start_time := 0
    deferred_power := 0
    next_deferrable_start := now + 300
    total_energy_consumed := 0
    shed_event_count := 0
    restart_event_count := 0
    min_shed_duration := 60
    max_shed_duration := 1800
    load_rotation_interval := 300 }

/-- Shedding a load (loads.c:116-118): state SHED, `current_state` false,
timestamp refreshed. -/
def shed_mark (ld : LoadDefinition) (now : Int) : LoadDefinition × LoadState :=
  ({ ld with current_state := false, last_state_change := now }, LoadState.shed)

/-- Eligibility test of the shedding loop (loads.c:105-113).  The separate
`loads_check_timing_constraints` re-check, reached by `continue` in the C,
is subsumed: `loads_can_shed_load` already contains it. -/
def shed_eligible (prio : Int) (available_power : ℚ) (now : Int)
    (x : LoadDefinition × LoadState) : Bool :=
  decide (x.1.priority = prio) && decide (x.2 = LoadState.on) && x.1.is_sheddable &&
    loads_can_shed_load x.1 available_power now

/-- Inner loop of loads_manage_shedding (loads.c:104-128) at one priority
level: walks the loads in index order, sheds each eligible one, and stops
as soon as the running `power_shed` reaches the target.  Returns the new
load list, the accumulated `power_shed`, and whether any load was shed. -/
def shed_at_priority (prio : Int) (available_power target : ℚ) (now : Int) :
    List (LoadDefinition × LoadState) → ℚ →
      List (LoadDefinition × LoadState) × ℚ × Bool
  | [], power_shed => ([], power_shed, false)
  | x :: rest, power_shed =>
    if shed_eligible prio available_power now x then
      let x' := shed_mark x.1 now
      let ps' := power_shed + x.1.rated_power
      if ps' ≥ target then (x' :: rest, ps', true)
      else
        let r := shed_at_priority prio available_power target now rest ps'
        (x' :: r.1, r.2.1, true)
    else
      let r := shed_at_priority prio available_power target now rest power_shed
      (x :: r.1, r.2.1, r.2.2)

/-- Outer loop of loads_manage_shedding (loads.c:103-133): priorities in
descending order (NonEssential = 4 first, Critical = 0 last), stopping once
the target is met (loads.c:130-132). -/
def shed_loop (available_power target : ℚ) (now : Int) :
    List Int → List (LoadDefinition × LoadState) → ℚ → Bool →
      List (LoadDefinition × LoadState) × ℚ × Bool
  | [], ls, power_shed, changed => (ls, power_shed, changed)
  | p :: prios, ls, power_shed, changed =>
    let r := shed_at_priority p available_power target now ls power_shed
    if r.2.1 ≥ target then (r.1, r.2.1, changed || r.2.2)
    else shed_loop available_power target now prios r.1 r.2.1 (changed || r.2.2)

/-- Candidate test of the restore loop (loads.c:160-162): matching priority,
currently SHED, and passing loads_can_shed_load (which also rejects
Critical loads and any call with available_power ≥ 40). -/
def restore_candidate (prio : Int) (available_power : ℚ) (now : Int)
    (x : LoadDefinition × LoadState) : Bool :=
  decide (x.1.priority = prio) && decide (x.2 = LoadState.shed) &&
    loads_can_shed_load x.1 available_power now

/-- Inner loop of loads_restore_shed (loads.c:159-175) at one priority level,
threading the running `excess_power` and the restart-event counter. -/
def restore_at_priority (prio : Int) (available_power : ℚ) (now : Int) :
    List (LoadDefinition × LoadState) → ℚ → Nat →
      List (LoadDefinition × LoadState) × ℚ × Nat
  | [], excess, rc => ([], excess, rc)
  | x :: rest, excess, rc =>
    if restore_candidate prio available_power now x then
      if x.1.rated_power ≤ excess then
        let x' := ({ x.1 with current_state := true, last_state_change := now },
          LoadState.on)
        let r := restore_at_priority prio available_power now rest
          (excess - x.1.rated_power) (rc + 1)
        (x' :: r.1, r.2.1, r.2.2)
      else
        let r := restore_at_priority prio available_power now rest excess rc
        (x :: r.1, r.2.1, r.2.2)
    else
      let r := restore_at_priority prio available_power now rest excess rc
      (x :: r.1, r.2.1, r.2.2)

/-- Outer loop of loads_restore_shed (loads.c:158-176): priorities in
ascending order (Critical = 0 first). -/
def restore_loop (available_power : ℚ) (now : Int) :
    List Int → List (LoadDefinition × LoadState) → ℚ → Nat →
      List (LoadDefinition × LoadState) × ℚ × Nat
  | [], ls, excess, rc => (ls, excess, rc)
  | p :: prios, ls, excess, rc =>
    let r := restore_at_priority p available_power now ls excess rc
    restore_loop available_power now prios r.1 r.2.1 r.2.2

/-- loads_restore_shed (loads.c:152-191). -/
def loads_restore_shed (lm : LoadManager) (available_power : ℚ) (now : Int) :
    LoadManager :=
  let r := restore_loop available_power now [0, 1, 2, 3, 4] lm.loads
    available_power lm.restart_event_count
  let lm1 := { lm with loads := r.1, restart_event_count := r.2.2 }
  let any_shed := lm1.loads.any fun x => decide (x.2 = LoadState.shed)
  if any_shed then lm1
  else { lm1 with shedding_active := false, shed_power_target := 0 }

/-- Rotation-restore candidate (loads.c:200-202): shed for at least
min_shed_duration. -/
def rotate_restore_pred (min_shed_duration : ℚ) (now : Int)
    (x : LoadDefinition × LoadState) : Bool :=
  decide (x.2 = LoadState.shed) &&
    decide (((now - x.1.last_state_change : Int) : ℚ) ≥ min_shed_duration)

/-- Search for the alternate load to shed during rotation (loads.c:209-226):
first index j ≠ skip whose load is ON, sheddable and passes
loads_can_shed_load with available_power = 0.  The C's trailing timing
re-check (`continue`) is subsumed by loads_can_shed_load. -/
def find_alternate (now : Int) (skip : Nat) :
    Nat → List (LoadDefinition × LoadState) → Option Nat
  | _, [] => none
  | j, x :: rest =>
    if (!(j == skip)) && decide (x.2 = LoadState.on) && x.1.is_sheddable &&
        loads_can_shed_load x.1 0 now then some j
    else find_alternate now skip (j + 1) rest

/-- loads_rotate_shedding (loads.c:193-234): restore the first load shed for
at least min_shed_duration, shed the first alternate eligible load instead
(one rotation at a time), and reset the rotation timer. -/
def loads_rotate_shedding (lm : LoadManager) (now : Int) : LoadManager :=
  match lm.loads.findIdx? (rotate_restore_pred lm.min_shed_duration now) with
  | none => { lm with shedding_start_time := now }
  | some i =>
    match lm.loads[i]? with
    | none => { lm with shedding_start_time := now }
    | some x =>
      let ls1 := lm.loads.set i
        ({ x.1 with current_state := true, last_state_change := now }, LoadState.on)
      let ls2 :=
        match find_alternate now i 0 ls1 with
        | none => ls1
        | some j =>
          match ls1[j]? with
          | none => ls1
          | some y => ls1.set j
            ({ y.1 with current_state := false, last_state_change := now },
              LoadState.shed)
      { lm with loads := ls2, shedding_start_time := now }

/-- loads_manage_shedding (loads.c:84-150): inert while grid-connected or
below 50 percent SOC; sheds above a 100 W deficit (setting the 120 percent
target when shedding engages); restores below a −200 W deficit while
shedding is active; then rotates if shedding has been active longer than
the rotation interval.  Returns the updated manager and the
`shedding_changed` flag. -/
def loads_manage_shedding (lm : LoadManager) (available_power total_load battery_soc : ℚ)
    (grid_available : Bool) (now : Int) : LoadManager × Bool :=
  if grid_available || decide (battery_soc < 50) then (lm, false)
  else
    let power_deficit := total_load - available_power
    let step1 : LoadManager × Bool :=
      if power_deficit > 100 then
        let lm1 :=
          if !lm.shedding_active then
            { lm with
              shedding_active := true
              shedding_start_time := now
              shed_power_target := power_deficit * (6 / 5)
              shed_event_count := lm.shed_event_count + 1 }
          else lm
        let r := shed_loop available_power lm1.shed_power_target now
          [PRIORITY_NON_ESSENTIAL, PRIORITY_LOW, PRIORITY_MEDIUM, PRIORITY_HIGH,
            PRIORITY_CRITICAL] lm1.loads 0 false
        ({ lm1 with loads := r.1 }, r.2.2)
      else if lm.shedding_active && decide (power_deficit < -200) then
        (loads_restore_shed lm available_power now, false)
      else (lm, false)
    let lm2 := step1.1
    if lm2.shedding_active &&
        decide (((now - lm2.shedding_start_time : Int) : ℚ) > lm2.load_rotation_interval) then
      (loads_rotate_shedding lm2 now, true)
    else (lm2, step1.2)

/-- loads_update_energy_consumed (loads.c:325-342).  The C accumulates into a
local `energy_consumed` that is never initialised (a latent bug); it is
modelled as starting at 0.  `total_energy_consumed` is only written when at
least one load is ON, as in the source. -/
def loads_update_energy_consumed (lm : LoadManager) (now : Int) : LoadManager :=
  let step := lm.loads.foldl
    (fun (acc : List (LoadDefinition × LoadState) × ℚ × Option ℚ) x =>
      if x.1.current_state then
        let duration : ℚ := ((now - x.1.last_state_change : Int) : ℚ)
        let ec := acc.2.1 + x.1.rated_power * duration
        (acc.1 ++ [({ x.1 with last_state_change := now }, x.2)], ec,
          some (ec / 3600 / 1000))
      else (acc.1 ++ [x], acc.2.1, acc.2.2))
    ([], 0, none)
  { lm with
    loads := step.1
    total_energy_consumed := (step.2.2).getD lm.total_energy_consumed }

/-- loads_update_measurements (loads.c:54-82): aggregate ON-load powers into
the shared measurement record, then update the energy accumulators. -/
def loads_update_measurements (lm : LoadManager) (m : Measurements) (now : Int) :
    LoadManager × Measurements :=
  let onLoads := lm.loads.filter fun x => decide (x.2 = LoadState.on)
  let total := onLoads.foldl (fun a x => a + x.1.rated_power) 0
  let crit := (onLoads.filter fun x => decide (x.1.priority = PRIORITY_CRITICAL)).foldl
    (fun a x => a + x.1.rated_power) 0
  let defr := (onLoads.filter fun x => x.1.is_deferrable).foldl
    (fun a x => a + x.1.rated_power) 0
  (loads_update_energy_consumed lm now,
    { m with
      load_power_total := total
      load_power_critical := crit
      load_power_deferrable := defr })

/-! ## battery.c: estimator, charge state machine, fault hysteresis -/

/-- battery_chemistry_e from battery.h. -/
inductive BatteryChemistry where
  | lfp
  | nmc
  | leadAcid
deriving DecidableEq, Repr

/-- battery_state_t from battery.h. -/
inductive BatteryState where
  | idle
  | charging
  | discharging
  | floatState
  | equalize
  | fault
  | maintenance
deriving DecidableEq, Repr

/-- charge_stage_t from battery.h. -/
inductive ChargeStage where
  | bulk
  | absorption
  | floatStage
  | equalize
deriving DecidableEq, Repr

/-- battery_bank_t from core.h (bank_id omitted only when unused: kept). -/
structure BatteryBank where
  bank_id : String
  nominal_voltage : ℚ
  cells_in_series : Int
  parallel_strings : Int
  capacity_wh : ℚ
  max_charge_power : ℚ
  max_discharge_power : ℚ
  cycle_count : Int
  last_full_charge_ts : Int
  health_percent : ℚ
  temperature_c : ℚ
  bank_soc : ℚ
  enabled : Bool
  balancing_active : Bool
deriving DecidableEq, Repr

/-- battery_system_t from battery.h.  The four `last_*` fields at the end are
the function-local statics of battery_check_limits (battery.c:576-579),
lifted to explicit state per spec section 9. -/
structure Battery where
  chemistry : BatteryChemistry
  banks : List BatteryBank
  bank_count : Nat
  active_bank_count : Nat
  accumulated_ah : ℚ
  last_update_ts : Int
  last_energy_update_ts : Int
  soc_coulomb : ℚ
  soc_voltage : ℚ
  soc_estimated : ℚ
  soc_smoothed : ℚ
  nominal_voltage : ℚ
  capacity_nominal_wh : ℚ
  capacity_remaining_wh : ℚ
  health_percent : ℚ
  temperature_c : ℚ
  ambient_temperature_c : ℚ
  cooling_active : Bool
  heating_active : Bool
  max_charge_current_a : ℚ
  max_discharge_current_a : ℚ
  max_charge_power_w : ℚ
  max_discharge_power_w : ℚ
  total_charge_wh : ℚ
  total_discharge_wh : ℚ
  cycle_depth_accumulated : ℚ
  cycle_count : Int
  deep_cycle_count : Int
  absorption_start_ts : Int
  float_start_ts : Int
  absorption_duration_s : ℚ
  float_duration_s : ℚ
  overvoltage_fault : Bool
  undervoltage_fault : Bool
  overcurrent_fault : Bool
  overtemperature_fault : Bool
  last_fault_reason : String
  fault_timestamp : Int
  fault_clear_attempts : Nat
  state : BatteryState
  previous_state : BatteryState
  charge_stage : ChargeStage
  balancing_enabled : Bool
  max_cell_voltage : ℚ
  min_cell_voltage : ℚ
  cell_voltage_spread : ℚ
  soc_voltage_weight : ℚ
  soc_smoothing_alpha : ℚ
  min_operating_soc : ℚ
  max_operating_soc : ℚ
  bulk_charge_soc_limit : ℚ
  absorption_charge_soc_limit : ℚ
  equalize_voltage : ℚ
  float_voltage : ℚ
  coulomb_efficiency : ℚ
  self_discharge_rate : ℚ
  last_overvoltage : Bool
  last_undervoltage : Bool
  last_overcurrent : Bool
  last_overtemperature : Bool

/-- Access to banks[0], which the C indexes unconditionally (the array always
has MAX_BATTERY_BANKS entries).  An empty list yields a zeroed bank. -/
def bank0 (bat : Battery) : BatteryBank :=
  bat.banks.headD
    { bank_id := "", nominal_voltage := 0, cells_in_series := 0,
      parallel_strings := 0, capacity_wh := 0, max_charge_power := 0,
      max_discharge_power := 0, cycle_count := 0, last_full_charge_ts := 0,
      health_percent := 0, temperature_c := 0, bank_soc := 0, enabled := false,
      balancing_active := false }

/-- The LFP open-circuit-voltage table (battery.c:21-24): cell volts paired
with SOC percent. -/
def lfp_ocv_table : List (ℚ × ℚ) :=
  [(28/10, 0), (3, 2), (31/10, 10), (32/10, 30),
   (325/100, 50), (33/10, 70), (335/100, 85), (34/10, 95), (345/100, 100)]

/-- The NMC open-circuit-voltage table (battery.c:28-31). -/
def nmc_ocv_table : List (ℚ × ℚ) :=
  [(3, 0), (34/10, 10), (36/10, 30), (37/10, 50),
   (385/100, 70), (4, 85), (41/10, 95), (42/10, 100)]

/-- The Lead-Acid open-circuit-voltage table (battery.c:35-38). -/
def lead_acid_ocv_table : List (ℚ × ℚ) :=
  [(175/100, 0), (195/100, 20), (205/100, 50), (215/100, 80),
   (225/100, 95), (235/100, 100)]

/-- Interior scan of ocv_to_soc (battery.c:45-52): find the first table entry
with voltage at least cell_v and interpolate linearly from its predecessor. -/
def ocv_interp (cell_v : ℚ) : (ℚ × ℚ) → List (ℚ × ℚ) → ℚ
  | _, [] => 0
  | prev, p :: rest =>
    if cell_v ≤ p.1 then
      let t := (cell_v - prev.1) / (p.1 - prev.1)
      prev.2 + t * (p.2 - prev.2)
    else ocv_interp cell_v p rest

/-- ocv_to_soc (battery.c:42-54): clamp to the table end points, otherwise
piecewise-linear interpolation. -/
def ocv_to_soc (cell_v : ℚ) (table : List (ℚ × ℚ)) : ℚ :=
  match table with
  | [] => 0
  | first :: rest =>
    if cell_v ≤ first.1 then first.2
    else
      match table.getLast? with
      | none => 0
      | some last =>
        if cell_v ≥ last.1 then last.2
        else ocv_interp cell_v first rest

/-- Main branch of battery_calculate_soc (battery.c:219-326), executed when a
prior timestamp exists: coulomb integration with self-discharge and
charge-efficiency, clamping, the voltage path through the chemistry OCV
table, dynamic fusion, divergence correction, adaptive exponential
smoothing and the capacity/bank write-backs. -/
def battery_calculate_soc_update (bat : Battery) (m : Measurements) (now : Int) :
    Battery × Measurements :=
    let dt0 : ℚ := ((now - bat.last_update_ts : Int) : ℚ)
    let dt_s := if dt0 < 1/2 then 1 else dt0
    let acc1 :=
      if bat.self_discharge_rate > 0 then
        let per_sec := bat.self_discharge_rate / (100 * 86400)
        let wh_loss := bat.capacity_nominal_wh * per_sec * dt_s
        bat.accumulated_ah - wh_loss / (bank0 bat).nominal_voltage
      else bat.accumulated_ah
    let delta0 := m.battery_current * dt_s / 3600
    let delta_ah := if delta0 > 0 then delta0 * bat.coulomb_efficiency else delta0
    let acc2 := acc1 + delta_ah
    let total_ah := bat.capacity_nominal_wh / (bank0 bat).nominal_voltage
    let acc3 := if acc2 < 0 then 0 else acc2
    let acc4 := if acc3 > total_ah then total_ah else acc3
    let soc_c := 100 * (acc4 / total_ah)
    let cell_v :=
      if (bank0 bat).cells_in_series > 0 then
        m.battery_voltage / (((bank0 bat).cells_in_series : Int) : ℚ)
      else m.battery_voltage / 16
    let soc_v :=
      match bat.chemistry with
      | BatteryChemistry.lfp => ocv_to_soc cell_v lfp_ocv_table
      | BatteryChemistry.nmc => ocv_to_soc cell_v nmc_ocv_table
      | BatteryChemistry.leadAcid => ocv_to_soc cell_v lead_acid_ocv_table
    let wv0 := bat.soc_voltage_weight
    let wv1 := if |m.battery_current| > bat.max_charge_current_a * (5/100) then 0 else wv0
    let wv2 := if bat.temperature_c < 10 ∨ bat.temperature_c > 40 then wv1 * (3/10) else wv1
    let wv3 := if wv2 < 0 then 0 else wv2
    let wv := if wv3 > 1 then 1 else wv3
    let wf := 1 - wv
    let soc_est := soc_c * wf + soc_v * wv
    let acc5 := if wv > 8/10 ∧ |soc_c - soc_v| > 18 then (soc_v / 100) * total_ah else acc4
    let alpha0 := bat.soc_smoothing_alpha
    let change_mag := |soc_est - bat.soc_smoothed|
    let alpha :=
      if change_mag > 1 then min 1 (alpha0 * 3)
      else if change_mag < 1/10 then alpha0 * (1/2)
      else alpha0
    let sm0 := alpha * soc_est + (1 - alpha) * bat.soc_smoothed
    let sm1 := if sm0 < 0 then 0 else sm0
    let smoothed := if sm1 > 100 then 100 else sm1
    ({ bat with
      accumulated_ah := acc5
      last_update_ts := now
      soc_coulomb := soc_c
      soc_voltage := soc_v
      soc_estimated := soc_est
      soc_smoothed := smoothed
      capacity_remaining_wh := (smoothed / 100) * bat.capacity_nominal_wh
      banks := bat.banks.mapIdx fun i bk =>
        if i < bat.active_bank_count then { bk with bank_soc := smoothed } else bk },
      { m with battery_soc := smoothed })

/-- battery_calculate_soc (battery.c:206-327).  On the first call (no prior
timestamp) it seeds the smoothed SOC and the coulomb accumulator from the
incoming SOC measurement and returns at once (battery.c:212-217) — in
particular without recomputing capacity_remaining_wh; otherwise it runs
the main estimation pass. -/
def battery_calculate_soc (bat : Battery) (m : Measurements) (now0 : Int) :
    Battery × Measurements :=
  let now := if m.timestamp ≠ 0 then m.timestamp else now0
  if bat.last_update_ts = 0 then
    ({ bat with
      last_update_ts := now
      soc_smoothed := m.battery_soc
      accumulated_ah := (m.battery_soc / 100) *
        (bat.capacity_nominal_wh / (bank0 bat).nominal_voltage) }, m)
  else battery_calculate_soc_update bat m now

/-- battery_calculate_max_charge (battery.c:513-555). -/
def battery_calculate_max_charge (bat : Battery) : ℚ :=
  let max_p0 := bat.max_charge_power_w
  let max_p1 :=
    if bat.soc_smoothed < 20 then max_p0
    else if bat.soc_smoothed > 80 then
      max_p0 * max (5/100) ((100 - bat.soc_smoothed) / 20)
    else max_p0
  let max_p2 :=
    if bat.temperature_c > 45 then
      max_p1 * max (1 - (bat.temperature_c - 45) / 20) (3/10)
    else if bat.temperature_c < 0 then
      if bat.soc_smoothed < 10 then max_p1 * (1/10) else 0
    else if bat.temperature_c < 10 then
      max_p1 * (bat.temperature_c / 10)
    else max_p1
  if max_p2 < 100 ∧ bat.soc_smoothed < 20 then 100 else max_p2

/-- battery_calculate_max_discharge (battery.c:558-568). -/
def battery_calculate_max_discharge (bat : Battery) : ℚ :=
  let max_p0 := bat.max_discharge_power_w
  let max_p1 :=
    if bat.soc_smoothed < 30 then
      max_p0 * max 0 ((bat.soc_smoothed - bat.min_operating_soc) /
        (30 - bat.min_operating_soc))
    else max_p0
  let max_p2 := if bat.temperature_c > 55 then max_p1 * (1/2) else max_p1
  if bat.temperature_c < -10 then max_p2 * (1/5) else max_p2

/-- battery_manage_charging (battery.c:330-453).  The C computes a local
charge_power and discards it (line 452); the embedding returns it as the
second component so the scenario properties can speak about it.  In the
no-charge branch no charge power is computed and 0 is returned. -/
def battery_manage_charging (bat : Battery) (available_power load_power : ℚ)
    (now : Int) : Battery × ℚ :=
  let excess := available_power - load_power
  let max_charge := battery_calculate_max_charge bat
  let emergency_charge := bat.soc_smoothed < 10 ∧ excess > 10
  let normal_charge := excess > 100 ∧ bat.soc_smoothed < bat.max_operating_soc
  if ¬(emergency_charge ∨ normal_charge) then
    let prev := if bat.state = BatteryState.charging then bat.state else bat.previous_state
    ({ bat with
      previous_state := prev
      state := BatteryState.idle
      absorption_start_ts := 0
      float_start_ts := 0
      charge_stage := ChargeStage.bulk }, 0)
  else
    let prev := bat.state
    let cp0 := min excess max_charge
    let cp1 := if bat.soc_smoothed < 10 ∧ cp0 < 100 then min 100 excess else cp0
    let stageResult : ChargeStage × Int × Int × ℚ :=
      if bat.soc_smoothed < bat.bulk_charge_soc_limit then
        (ChargeStage.bulk, bat.absorption_start_ts, bat.float_start_ts,
          if bat.soc_smoothed < 20 then min excess bat.max_charge_power_w else cp1)
      else if bat.soc_smoothed < bat.absorption_charge_soc_limit then
        let abs_ts := if bat.absorption_start_ts = 0 then now else bat.absorption_start_ts
        let elapsed : ℚ := ((now - abs_ts : Int) : ℚ)
        let factor :=
          if bat.absorption_duration_s > 0 then
            max (1/10) (1 - elapsed / bat.absorption_duration_s)
          else 1
        let cp2 := cp1 * factor
        if elapsed ≥ bat.absorption_duration_s then
          (ChargeStage.floatStage, abs_ts, now, cp2)
        else (ChargeStage.absorption, abs_ts, bat.float_start_ts, cp2)
      else
        let cp2 := min cp1 (max_charge * (5/100))
        let fl_ts := if bat.float_start_ts = 0 then now else bat.float_start_ts
        if bat.soc_smoothed < bat.bulk_charge_soc_limit - 5 then
          (ChargeStage.bulk, bat.absorption_start_ts, 0, cp2)
        else (ChargeStage.floatStage, bat.absorption_start_ts, fl_ts, cp2)
    let cp3 :=
      if bat.temperature_c > 40 then
        stageResult.2.2.2 * max (1 - (bat.temperature_c - 40) / 20) (3/10)
      else if bat.temperature_c < 0 then
        if bat.soc_smoothed < 10 then stageResult.2.2.2 * (1/10) else 0
      else if bat.temperature_c < 10 then
        stageResult.2.2.2 * (1/10 + bat.temperature_c / 10 * (9/10))
      else stageResult.2.2.2
    let energy :=
      if cp3 > 0 then
        (bat.total_charge_wh + cp3 / 3600,
          bat.accumulated_ah + (cp3 / bat.nominal_voltage / 3600) * bat.coulomb_efficiency)
      else (bat.total_charge_wh, bat.accumulated_ah)
    ({ bat with
      previous_state := prev
      state := BatteryState.charging
      charge_stage := stageResult.1
      absorption_start_ts := stageResult.2.1
      float_start_ts := stageResult.2.2.1
      total_charge_wh := energy.1
      accumulated_ah := energy.2 }, cp3)

/-- battery_manage_discharging (battery.c:456-510).  Returns the battery and
the local discharge_power (discarded by the C, kept for specification).
Rational division by zero yields 0, making the projected time-to-floor 0
where the C would produce a non-finite double; none of the verified
properties exercises that corner. -/
def battery_manage_discharging (bat : Battery) (load_power : ℚ)
    (grid_available : Bool) : Battery × ℚ :=
  let max_dis := battery_calculate_max_discharge bat
  let should_discharge :=
    if !grid_available then
      load_power > 10 ∧ bat.soc_smoothed > bat.min_operating_soc + 5
    else
      bat.soc_smoothed > 70 ∧ load_power > 100 ∧ bat.soc_smoothed > bat.min_operating_soc
  if ¬ should_discharge then
    let prev := if bat.state = BatteryState.discharging then bat.state else bat.previous_state
    ({ bat with previous_state := prev, state := BatteryState.idle }, 0)
  else
    let prev := bat.state
    let dp0 := min load_power max_dis
    let dp1 :=
      if bat.soc_smoothed < bat.min_operating_soc + 10 then
        dp0 * max ((bat.soc_smoothed - bat.min_operating_soc) / 10) (1/10)
      else dp0
    let dp2 := if bat.temperature_c > 50 then dp1 * (1/2) else dp1
    let dp3 := if bat.temperature_c < -10 then dp2 * (1/5) else dp2
    let hours_to_min_soc := (bat.soc_smoothed - bat.min_operating_soc) / 100 *
      bat.capacity_nominal_wh / dp3
    let dp4 := if hours_to_min_soc < 1/2 then dp3 * (1/2) else dp3
    ({ bat with
      previous_state := prev
      state := BatteryState.discharging
      total_discharge_wh := bat.total_discharge_wh + dp4 * (1 / 3600) }, dp4)

/-- Chemistry-specific overvoltage trip threshold (battery.c:587-601). -/
def cell_v_max_of (c : BatteryChemistry) : ℚ :=
  match c with
  | BatteryChemistry.lfp => 365/100
  | BatteryChemistry.nmc => 42/10
  | BatteryChemistry.leadAcid => 245/100

/-- Chemistry-specific undervoltage trip threshold (battery.c:587-601). -/
def cell_v_min_of (c : BatteryChemistry) : ℚ :=
  match c with
  | BatteryChemistry.lfp => 25/10
  | BatteryChemistry.nmc => 3
  | BatteryChemistry.leadAcid => 175/100

/-- Chemistry-specific overvoltage recovery threshold (battery.c:587-601). -/
def cell_v_max_hyst_of (c : BatteryChemistry) : ℚ :=
  match c with
  | BatteryChemistry.lfp => 36/10
  | BatteryChemistry.nmc => 415/100
  | BatteryChemistry.leadAcid => 24/10

/-- Chemistry-specific undervoltage recovery threshold (battery.c:587-601). -/
def cell_v_min_hyst_of (c : BatteryChemistry) : ℚ :=
  match c with
  | BatteryChemistry.lfp => 26/10
  | BatteryChemistry.nmc => 31/10
  | BatteryChemistry.leadAcid => 18/10

/-- The per-cell voltage used by battery_check_limits (battery.c:582-584):
series-cell count with fallback to DEFAULT_BANK_SERIES_CELLS = 16. -/
def battery_cell_v (bat : Battery) (m : Measurements) : ℚ :=
  let s0 := (bank0 bat).cells_in_series
  let s := if s0 ≤ 0 then 16 else s0
  if s > 0 then m.battery_voltage / ((s : Int) : ℚ) else 0

/-- Overvoltage block of battery_check_limits (battery.c:603-614), including
the final static write-back.  Returns the updated battery and the fault
contribution. -/
def check_overvoltage (bat : Battery) (cell_v : ℚ) (now : Int) : Battery × Bool :=
  let b1 :=
    if cell_v > cell_v_max_of bat.chemistry then
      if !bat.last_overvoltage then
        { bat with
          overvoltage_fault := true
          last_fault_reason := "Cell overvoltage"
          fault_timestamp := now }
      else { bat with overvoltage_fault := true }
    else if cell_v < cell_v_max_hyst_of bat.chemistry ∧ bat.last_overvoltage then
      { bat with overvoltage_fault := false }
    else bat
  ({ b1 with last_overvoltage := b1.overvoltage_fault },
    decide (cell_v > cell_v_max_of bat.chemistry))

/-- Undervoltage block of battery_check_limits (battery.c:616-628). -/
def check_undervoltage (bat : Battery) (cell_v : ℚ) (now : Int) : Battery × Bool :=
  let b1 :=
    if cell_v < cell_v_min_of bat.chemistry then
      if !bat.last_undervoltage then
        { bat with
          undervoltage_fault := true
          last_fault_reason := "Cell undervoltage"
          fault_timestamp := now }
      else { bat with undervoltage_fault := true }
    else if cell_v > cell_v_min_hyst_of bat.chemistry ∧ bat.last_undervoltage then
      { bat with undervoltage_fault := false }
    else bat
  ({ b1 with last_undervoltage := b1.undervoltage_fault },
    decide (cell_v < cell_v_min_of bat.chemistry))

/-- Overcurrent block of battery_check_limits (battery.c:630-659): trip at
120 percent of either current limit, recover strictly inside the 110
percent band. -/
def check_overcurrent (bat : Battery) (current : ℚ) (now : Int) : Battery × Bool :=
  let charge_threshold := bat.max_charge_current_a * (6/5)
  let discharge_threshold := bat.max_discharge_current_a * (6/5)
  let charge_hyst := bat.max_charge_current_a * (11/10)
  let discharge_hyst := bat.max_discharge_current_a * (11/10)
  let b1 :=
    if current > charge_threshold then
      if !bat.last_overcurrent then
        { bat with
          overcurrent_fault := true
          last_fault_reason := "Charge overcurrent"
          fault_timestamp := now }
      else { bat with overcurrent_fault := true }
    else if current < -discharge_threshold then
      if !bat.last_overcurrent then
        { bat with
          overcurrent_fault := true
          last_fault_reason := "Discharge overcurrent"
          fault_timestamp := now }
      else { bat with overcurrent_fault := true }
    else if current < charge_hyst ∧ current > -discharge_hyst ∧ bat.last_overcurrent then
      { bat with overcurrent_fault := false }
    else bat
  ({ b1 with last_overcurrent := b1.overcurrent_fault },
    decide (current > charge_threshold) || decide (current < -discharge_threshold))

/-- Overtemperature block of battery_check_limits (battery.c:661-677): trip
strictly above 60 C, recover strictly below 55 C. -/
def check_overtemperature (bat : Battery) (temp : ℚ) (now : Int) : Battery × Bool :=
  let b1 :=
    if temp > 60 then
      if !bat.last_overtemperature then
        { bat with
          overtemperature_fault := true
          last_fault_reason := "Overtemperature"
          fault_timestamp := now }
      else { bat with overtemperature_fault := true }
    else if temp < 55 ∧ bat.last_overtemperature then
      { bat with overtemperature_fault := false }
    else bat
  ({ b1 with last_overtemperature := b1.overtemperature_fault },
    decide (temp > 60))

/-- battery_check_limits (battery.c:572-686): the four hysteresis blocks in
source order, then the transition to the Fault state when any trip fired. -/
def battery_check_limits (bat : Battery) (m : Measurements) (now : Int) :
    Battery × Bool :=
  let cell_v := battery_cell_v bat m
  let r1 := check_overvoltage bat cell_v now
  let r2 := check_undervoltage r1.1 cell_v now
  let r3 := check_overcurrent r2.1 m.battery_current now
  let r4 := check_overtemperature r3.1 m.battery_temp now
  let fault := r1.2 || r2.2 || r3.2 || r4.2
  let b :=
    if fault ∧ r4.1.state ≠ BatteryState.fault then
      { r4.1 with
        previous_state := r4.1.state
        state := BatteryState.fault
        fault_clear_attempts := 0 }
    else r4.1
  (b, fault)

/-- battery_thermal_management (battery.c:689-708). -/
def battery_thermal_management (bat : Battery) : Battery :=
  let cooling :=
    if bat.temperature_c ≥ 35 then true
    else if bat.temperature_c ≤ 33 then false
    else bat.cooling_active
  let heating :=
    if bat.temperature_c ≤ 8 then true
    else if bat.temperature_c ≥ 10 then false
    else bat.heating_active
  { bat with cooling_active := cooling, heating_active := heating }

/-- battery_clear_faults (battery.c:753-775). -/
def battery_clear_faults (bat : Battery) : Battery :=
  if bat.state ≠ BatteryState.fault then bat
  else
    let still_faulted := bat.overvoltage_fault || bat.undervoltage_fault ||
      bat.overcurrent_fault || bat.overtemperature_fault
    if !still_faulted then
      let st :=
        if bat.previous_state ≠ BatteryState.fault then bat.previous_state
        else BatteryState.idle
      { bat with state := st, fault_clear_attempts := bat.fault_clear_attempts + 1 }
    else { bat with fault_clear_attempts := bat.fault_clear_attempts + 1 }

/-- First phase of battery_update_measurements (battery.c:164-175):
temperature intake, the battery_power publication (capacity_remaining_wh
when nonzero — the voltage-times-current computation of line 174 is
commented out in the source), the voltage write-back, and the timestamp
default. -/
def battery_update_intake (bat : Battery) (m : Measurements) (now : Int) :
    Battery × Measurements :=
  let b1 := if m.battery_temp ≠ 0 then { bat with temperature_c := m.battery_temp } else bat
  let m1 := if b1.capacity_remaining_wh ≠ 0 then
    { m with battery_power := b1.capacity_remaining_wh } else m
  let m2 := { m1 with battery_voltage := b1.nominal_voltage }
  (b1, { m2 with timestamp := if m2.timestamp ≠ 0 then m2.timestamp else now })

/-- Energy-flow tracking of battery_update_measurements (battery.c:177-191). -/
def battery_update_energy_flows (bat : Battery) (m : Measurements) : Battery :=
  if bat.last_energy_update_ts = 0 then
    { bat with last_energy_update_ts := m.timestamp }
  else
    let dt_hours : ℚ := ((m.timestamp - bat.last_energy_update_ts : Int) : ℚ) / 3600
    if dt_hours > 0 then
      let energy_wh := m.battery_power * dt_hours
      if energy_wh > 0 then
        { bat with
          total_charge_wh := bat.total_charge_wh + energy_wh
          last_energy_update_ts := m.timestamp }
      else
        { bat with
          total_discharge_wh := bat.total_discharge_wh + -energy_wh
          last_energy_update_ts := m.timestamp }
    else bat

/-- battery_update_measurements (battery.c:161-203): intake phase, energy
tracking, SOC recalculation, safety and thermal updates, and the
five-minute fault auto-clear. -/
def battery_update_measurements (bat : Battery) (m : Measurements) (now : Int) :
    Battery × Measurements :=
  let r0 := battery_update_intake bat m now
  let b2 := battery_update_energy_flows r0.1 r0.2
  let r1 := battery_calculate_soc b2 r0.2 now
  let r2 := battery_check_limits r1.1 r1.2 now
  let b3 := battery_thermal_management r2.1
  if b3.state = BatteryState.fault ∧ ((now - b3.fault_timestamp : Int) : ℚ) > 300 then
    (battery_clear_faults b3, r1.2)
  else (b3, r1.2)

/-- battery_init (battery.c:57-158) with the factory defaults of battery.h:
four LFP banks of 10 kWh at 48 V, 16 series cells, 5 kW charge and
discharge limits.  The config argument is unused by the C (cast to void). -/
def battery_init : Battery :=
  let bank : BatteryBank :=
    { bank_id := "BANK", nominal_voltage := 48, cells_in_series := 16,
      parallel_strings := 1, capacity_wh := 10000, max_charge_power := 5000,
      max_discharge_power := 5000, cycle_count := 0, last_full_charge_ts := 0,
      health_percent := 100, temperature_c := 25, bank_soc := 50, enabled := true,
      balancing_active := false }
  { chemistry := BatteryChemistry.lfp
    banks := [bank, bank, bank, bank]
    bank_count := 4
    active_bank_count := 4
    accumulated_ah := 0
    last_update_ts := 0
    last_energy_update_ts := 0
    soc_coulomb := 50
    soc_voltage := 50
    soc_estimated := 50
    soc_smoothed := 50
    nominal_voltage := 48
    capacity_nominal_wh := 40000
    capacity_remaining_wh := 50
    health_percent := 100
    temperature_c := 25
    ambient_temperature_c := 25
    cooling_active := false
    heating_active := false
    max_charge_current_a := 20000 / 48
    max_discharge_current_a := 20000 / 48
    max_charge_power_w := 20000
    max_discharge_power_w := 20000
    total_charge_wh := 0
    total_discharge_wh := 0
    cycle_depth_accumulated := 0
    cycle_count := 0
    deep_cycle_count := 0
    absorption_start_ts := 0
    float_start_ts := 0
    absorption_duration_s := 7200
    float_duration_s := 86400
    overvoltage_fault := false
    undervoltage_fault := false
    overcurrent_fault := false
    overtemperature_fault := false
    last_fault_reason := ""
    fault_timestamp := 0
    fault_clear_attempts := 0
    state := BatteryState.idle
    previous_state := BatteryState.idle
    charge_stage := ChargeStage.bulk
    balancing_enabled := true
    max_cell_voltage := 0
    min_cell_voltage := 0
    cell_voltage_spread := 0
    soc_voltage_weight := 4/10
    soc_smoothing_alpha := 1/10
    min_operating_soc := 5
    max_operating_soc := 98
    bulk_charge_soc_limit := 85
    absorption_charge_soc_limit := 95
    equalize_voltage := 365/100
    float_voltage := 34/10
    coulomb_efficiency := 99/100
    self_discharge_rate := 33/100
    last_overvoltage := false
    last_undervoltage := false
    last_overcurrent := false
    last_overtemperature := false }

/-! ## controller.c: the Power Arbitration / Control Cycle

The PV, irrigation and EV subsystems are external collaborators (spec
section 1); the controller record is parameterised over their state types
and a `Collaborators` bundle provides their entry points, so controller.c
itself is embedded faithfully while the collaborator internals stay
abstract.  The `FILE* log_file` / `char* name` handles and all printf-only
logging are I/O and carry no control state. -/

/-- Alarm bit positions (alarm_code_t, core.h). -/
def ALARM_GRID_FAILURE : Nat := 0

def ALARM_BATTERY_OVER_TEMP : Nat := 1

def ALARM_BATTERY_LOW_SOC : Nat := 2

def ALARM_PV_DISCONNECT : Nat := 3

def ALARM_OVERLOAD : Nat := 4

def ALARM_COMM_FAILURE : Nat := 5

def ALARM_IRRIGATION_FAULT : Nat := 6

def ALARM_EV_CHARGER_FAULT : Nat := 7

/-- system_status_t from core.h; the uint8_t bitmasks become `Nat`. -/
structure SystemStatus where
  mode : SystemMode
  grid_available : Bool
  grid_stable : Bool
  battery_available : Bool
  pv_available : Bool
  critical_loads_on : Bool
  battery_soc_category : SocCategory
  alarms : Nat
  warnings : Nat
  last_mode_change : Int
  uptime : Int
deriving DecidableEq, Repr

/-- control_commands_t from core.h: load_shed has MAX_CONTROLLABLE_LOADS = 12
entries, irrigation_enable 8, ev_charge_rate 2. -/
structure ControlCommands where
  battery_setpoint : ℚ
  pv_curtail : Bool
  pv_curtail_percent : ℚ
  load_shed : List Bool
  irrigation_enable : List Bool
  ev_charge_rate : List ℚ
  grid_connect : Bool
  island : Bool
deriving DecidableEq, Repr

/-- system_statistics_t from core.h. -/
structure SystemStatistics where
  pv_energy_total : ℚ
  grid_import_total : ℚ
  grid_export_total : ℚ
  battery_charge_total : ℚ
  battery_discharge_total : ℚ
  load_energy_total : ℚ
  irrigation_energy_total : ℚ
  ev_charge_energy_total : ℚ
  grid_outage_count : Nat
  load_shed_count : Nat
  island_count : Nat
  stats_start_time : Int
deriving DecidableEq, Repr

/-- system_controller_t from controller.h, parameterised over the
collaborator state types.  `last_fault_description` is the pair of values
(fault bits, time) its snprintf formats into the C char buffer. -/
structure Controller (P A E : Type) where
  mode : CtrlMode
  pv_system : P
  battery_system : Battery
  load_manager : LoadManager
  agriculture_system : A
  ev_system : E
  measurements : Measurements
  status : SystemStatus
  commands : ControlCommands
  statistics : SystemStatistics
  control_interval : ℚ
  last_control_cycle : Int
  cycle_count : Nat
  grid_import_allowed : Bool
  grid_export_allowed : Bool
  grid_import_limit : ℚ
  grid_export_limit : ℚ
  battery_soc_target : ℚ
  pv_self_consumption_target : ℚ
  max_total_power : ℚ
  max_battery_temp : ℚ
  max_load_power : ℚ
  log_level : Int
  verbose : Bool
  fault_mask : Nat
  last_fault_time : Int
  last_fault_description : Nat × Int

/-- Entry points of the out-of-scope collaborator subsystems, as invoked by
controller.c: measurement refresh, fault polling, curtailment, irrigation
and EV planning, and the emergency actions (agriculture_emergency_stop and
the ev_pause_charging loop of controller.c:435-439). -/
structure Collaborators (P A E : Type) where
  pvUpdate : P → Measurements → P × Measurements
  agUpdate : A → Measurements → A × Measurements
  evUpdate : E → Measurements → E × Measurements
  pvDetectFaults : P → Measurements → P × Bool
  agCheckFaults : A → A × Bool
  evCheckFaults : E → E × Bool
  pvApplyCurtailment : P → ℚ → P
  agManageIrrigation : A → ℚ → ℚ → Bool → A
  evManageCharging : E → ℚ → ℚ → Bool → E
  agEmergencyStop : A → A
  evPauseAll : E → E

variable {P A E : Type}

/-- controller_update_measurements (controller.c:144-189): subsystem updates
in source order (PV, battery, loads, agriculture, EV), then the grid-power
balance with import/export clamping when the grid is available, island
clearing otherwise, and the measurement timestamp. -/
def controller_update_measurements (cb : Collaborators P A E)
    (c : Controller P A E) (now : Int) : Controller P A E :=
  let rp := cb.pvUpdate c.pv_system c.measurements
  let rb := battery_update_measurements c.battery_system rp.2 now
  let rl := loads_update_measurements c.load_manager rb.2 now
  let ra := cb.agUpdate c.agriculture_system rl.2
  let re := cb.evUpdate c.ev_system ra.2
  let m := re.2
  let m1 :=
    if c.status.grid_available then
      let gv := if m.grid_voltage > 0 then m.grid_voltage else 240
      let gf := if m.grid_frequency > 0 then m.grid_frequency else 60
      let total_generation := m.pv_power_total
      let total_consumption := m.load_power_total + m.irrigation_power +
        m.ev_charging_power
      let gp0 := total_consumption - total_generation - m.battery_power
      let gp :=
        if gp0 > 0 then
          if !c.grid_import_allowed || decide (gp0 > c.grid_import_limit) then
            c.grid_import_limit
          else gp0
        else
          if !c.grid_export_allowed || decide (|gp0| > c.grid_export_limit) then
            -c.grid_export_limit
          else gp0
      { m with grid_voltage := gv, grid_frequency := gf, grid_power := gp }
    else { m with grid_power := 0, grid_voltage := 0, grid_frequency := 0 }
  { c with
    pv_system := rp.1
    battery_system := rb.1
    load_manager := rl.1
    agriculture_system := ra.1
    ev_system := re.1
    measurements := { m1 with timestamp := now } }

/-- controller_determine_mode (controller.c:192-235): grid availability from
voltage/frequency windows, edge-triggered island/normal transitions and
grid-failure alarm, critical-SOC override, and the SOC category ladder. -/
def controller_determine_mode (c : Controller P A E) (now : Int) :
    Controller P A E :=
  let grid_was_available := c.status.grid_available
  let grid_avail := decide (c.measurements.grid_voltage > 200) &&
    decide (c.measurements.grid_frequency > 119/2) &&
    decide (c.measurements.grid_frequency < 121/2)
  let step :=
    if !grid_avail && grid_was_available then
      (SystemMode.island,
        { c.status with
          grid_available := grid_avail
          last_mode_change := now
          alarms := c.status.alarms ||| (1 <<< ALARM_GRID_FAILURE) },
        { c.statistics with
          grid_outage_count := c.statistics.grid_outage_count + 1
          island_count := c.statistics.island_count + 1 })
    else if grid_avail && !grid_was_available then
      (SystemMode.normal,
        { c.status with
          grid_available := grid_avail
          last_mode_change := now
          alarms := Nat.land c.status.alarms 254 },
        c.statistics)
    else (c.status.mode, { c.status with grid_available := grid_avail }, c.statistics)
  let step2 :=
    if c.measurements.battery_soc < 20 ∧ !grid_avail then
      (SystemMode.critical,
        { step.2.1 with alarms := step.2.1.alarms ||| (1 <<< ALARM_BATTERY_LOW_SOC) })
    else (step.1, step.2.1)
  let category :=
    if c.measurements.battery_soc < 20 then SocCategory.critical
    else if c.measurements.battery_soc < 40 then SocCategory.low
    else if c.measurements.battery_soc < 70 then SocCategory.medium
    else if c.measurements.battery_soc < 90 then SocCategory.high
    else SocCategory.full
  { c with
    status := { step2.2 with mode := step2.1, battery_soc_category := category }
    statistics := step.2.2 }

/-- The zeroed control_commands_t produced by the memset of
controller_optimize_energy_flow (controller.c:250). -/
def control_commands_zero : ControlCommands :=
  { battery_setpoint := 0
    pv_curtail := false
    pv_curtail_percent := 0
    load_shed := List.replicate 12 false
    irrigation_enable := List.replicate 8 false
    ev_charge_rate := List.replicate 2 0
    grid_connect := false
    island := false }

/-- controller_optimize_energy_flow (controller.c:238-294): battery charge or
discharge routing with high-SOC curtailment, load shedding, shed-flag
propagation, collaborator planning, the grid-connect/island decision and
the battery setpoint (set to the measured battery_power). -/
def controller_optimize_energy_flow (cb : Collaborators P A E)
    (c : Controller P A E) (now : Int) : Controller P A E :=
  let total_generation := c.measurements.pv_power_total
  let total_consumption := c.measurements.load_power_total +
    c.measurements.irrigation_power + c.measurements.ev_charging_power
  let available_power := total_generation
  let battery_soc := c.measurements.battery_soc
  let grid_available := c.status.grid_available
  let step :=
    if total_generation > total_consumption then
      let excess := total_generation - total_consumption
      let bat1 := (battery_manage_charging c.battery_system excess total_consumption now).1
      if battery_soc > 90 ∧ excess > 100 then
        let curtail_percent := min ((battery_soc - 90) * 5) 50
        (bat1, cb.pvApplyCurtailment c.pv_system curtail_percent,
          { control_commands_zero with
            pv_curtail := true
            pv_curtail_percent := curtail_percent })
      else (bat1, c.pv_system, control_commands_zero)
    else
      let deficit := total_consumption - total_generation
      ((battery_manage_discharging c.battery_system deficit grid_available).1,
        c.pv_system, control_commands_zero)
  let rl := loads_manage_shedding c.load_manager available_power total_consumption
    c.measurements.battery_soc grid_available now
  let lm1 := rl.1
  let shed_flags := (List.range 12).map fun i =>
    decide ((lm1.loads[i]?).elim LoadState.off (fun x => x.2) = LoadState.shed)
  let ag1 := cb.agManageIrrigation c.agriculture_system available_power
    c.measurements.battery_soc grid_available
  let ev1 := cb.evManageCharging c.ev_system available_power
    c.measurements.battery_soc grid_available
  let gc := grid_available && (decide (c.status.mode = SystemMode.normal) ||
    decide (c.status.mode = SystemMode.maintenance))
  let isl := !grid_available || decide (c.status.mode = SystemMode.island) ||
    decide (c.status.mode = SystemMode.critical)
  { c with
    battery_system := step.1
    pv_system := step.2.1
    load_manager := lm1
    agriculture_system := ag1
    ev_system := ev1
    commands := { step.2.2 with
      load_shed := shed_flags
      grid_connect := gc
      island := isl
      battery_setpoint := c.measurements.battery_power } }

/-- controller_manage_grid_connection (controller.c:297-306). -/
def controller_manage_grid_connection (c : Controller P A E) : Controller P A E :=
  if c.commands.grid_connect && !c.commands.island then
    { c with status := { c.status with grid_available := true, grid_stable := true } }
  else if c.commands.island then
    { c with status := { c.status with grid_available := false } }
  else c

/-- controller_handle_faults (controller.c:309-354): poll each subsystem,
latch new fault bits into fault_mask and the alarm bitmask, and record
the description values. -/
def controller_handle_faults (cb : Collaborators P A E) (c : Controller P A E)
    (now : Int) : Controller P A E :=
  let rpv := cb.pvDetectFaults c.pv_system c.measurements
  let f1 := if rpv.2 then 1 <<< ALARM_PV_DISCONNECT else 0
  let rbat := battery_check_limits c.battery_system c.measurements now
  let f2 := if rbat.2 && rbat.1.overtemperature_fault then
    1 <<< ALARM_BATTERY_OVER_TEMP else 0
  let rag := cb.agCheckFaults c.agriculture_system
  let f3 := if rag.2 then 1 <<< ALARM_IRRIGATION_FAULT else 0
  let rev := cb.evCheckFaults c.ev_system
  let f4 := if rev.2 then 1 <<< ALARM_EV_CHARGER_FAULT else 0
  let total_power := c.measurements.load_power_total +
    c.measurements.irrigation_power + c.measurements.ev_charging_power
  let f5 := if total_power > c.max_total_power then 1 <<< ALARM_OVERLOAD else 0
  let new_faults := f1 ||| f2 ||| f3 ||| f4 ||| f5
  let c1 := { c with
    pv_system := rpv.1
    battery_system := rbat.1
    agriculture_system := rag.1
    ev_system := rev.1 }
  if new_faults ≠ 0 then
    { c1 with
      fault_mask := c1.fault_mask ||| new_faults
      status := { c1.status with alarms := c1.status.alarms ||| new_faults }
      last_fault_time := now
      last_fault_description := (new_faults, now) }
  else c1

/-- controller_update_statistics (controller.c:357-387), with dt equal to the
configured control interval as in the source. -/
def controller_update_statistics (c : Controller P A E) : Controller P A E :=
  let dt := c.control_interval
  let m := c.measurements
  let st := c.statistics
  let st1 := { st with
    pv_energy_total := st.pv_energy_total + (m.pv_power_total * dt) / 3600 / 1000 }
  let st2 :=
    if m.grid_power > 0 then
      { st1 with grid_import_total :=
        st1.grid_import_total + (m.grid_power * dt) / 3600 / 1000 }
    else
      { st1 with grid_export_total :=
        st1.grid_export_total + (|m.grid_power| * dt) / 3600 / 1000 }
  let st3 :=
    if m.battery_power < 0 then
      { st2 with battery_charge_total :=
        st2.battery_charge_total + (|m.battery_power| * dt) / 3600 / 1000 }
    else
      { st2 with battery_discharge_total :=
        st2.battery_discharge_total + (m.battery_power * dt) / 3600 / 1000 }
  let st4 := { st3 with
    load_energy_total := st3.load_energy_total + (m.load_power_total * dt) / 3600 / 1000
    irrigation_energy_total :=
      st3.irrigation_energy_total + (m.irrigation_power * dt) / 3600 / 1000
    ev_charge_energy_total :=
      st3.ev_charge_energy_total + (m.ev_charging_power * dt) / 3600 / 1000 }
  let st5 :=
    if c.load_manager.shedding_active then
      { st4 with load_shed_count := st4.load_shed_count + 1 }
    else st4
  { c with statistics := st5 }

/-- controller_emergency_shutdown (controller.c:424-460): force every load
shed command, stop irrigation, pause all EV chargers, curtail PV fully,
island from the grid, and enter SAFE/EMERGENCY modes.  Source line 429 is
an intended comment whose leading slashes are missing in the repository;
it is read as the comment that the loop below it implements. -/
def controller_emergency_shutdown (cb : Collaborators P A E)
    (c : Controller P A E) : Controller P A E :=
  { c with
    commands := { c.commands with
      load_shed := List.replicate 12 true
      grid_connect := false
      island := true }
    agriculture_system := cb.agEmergencyStop c.agriculture_system
    ev_system := cb.evPauseAll c.ev_system
    pv_system := cb.pvApplyCurtailment c.pv_system 100
    mode := CtrlMode.safe
    status := { c.status with mode := SystemMode.emergency } }

/-- controller_check_safety_limits (controller.c:464-497): battery
temperature, total power, load power, battery voltage envelope; false
means the system must stop. -/
def controller_check_safety_limits (c : Controller P A E) : Bool :=
  if c.measurements.battery_temp > c.max_battery_temp then false
  else if c.measurements.load_power_total + c.measurements.irrigation_power +
      c.measurements.ev_charging_power > c.max_total_power then false
  else if c.measurements.load_power_total > c.max_load_power then false
  else if c.measurements.battery_voltage < 20 ∨ c.measurements.battery_voltage > 80 then
    false
  else true

/-- Timing bookkeeping at the head of a control cycle (controller.c:103-105). -/
def controller_cycle_tick (c : Controller P A E) (now : Int) : Controller P A E :=
  { c with
    last_control_cycle := now
    cycle_count := c.cycle_count + 1
    status := { c.status with uptime := now - c.statistics.stats_start_time } }

/-- controller_run_cycle (controller.c:90-141): the elapsed-interval gate,
timing bookkeeping, measurement refresh, the safety gate with the
emergency path, then fault handling, mode determination, optimization,
grid management and statistics.  The periodic status logging
(controller.c:133-138) is printf-only.  Returns the C result code and the
post-cycle controller. -/
def controller_run_cycle (cb : Collaborators P A E) (c : Controller P A E)
    (now : Int) : Int × Controller P A E :=
  let elapsed : ℚ := ((now - c.last_control_cycle : Int) : ℚ)
  if elapsed < c.control_interval then (-1, c)
  else
    let c1 := controller_cycle_tick c now
    let c2 := controller_update_measurements cb c1 now
    if !controller_check_safety_limits c2 then
      (-1, controller_emergency_shutdown cb c2)
    else
      let c3 := controller_handle_faults cb c2 now
      let c4 := controller_determine_mode c3 now
      let c5 := controller_optimize_energy_flow cb c4 now
      let c6 := controller_manage_grid_connection c5
      let c7 := controller_update_statistics c6
      (0, c7)

/-! ## Test fixtures (concrete inputs for witnesses and counterexamples) -/

/-- Fixture: a NonEssential 200 W sheddable load, ON, no timing block. -/
def ne200 : LoadDefinition :=
  { id := "NE200", rated_power := 200, priority := PRIORITY_NON_ESSENTIAL,
    is_deferrable := false, is_sheddable := true, min_on_time := 0,
    min_off_time := 0, last_state_change := 0, current_state := true }

/-- Fixture: a Critical 500 W load, ON. -/
def crit500 : LoadDefinition :=
  { id := "CRIT", rated_power := 500, priority := PRIORITY_CRITICAL,
    is_deferrable := false, is_sheddable := false, min_on_time := 0,
    min_off_time := 0, last_state_change := 0, current_state := true }

/-- Fixture: a NonEssential 10 W sheddable load, currently SHED. -/
def ne10_shed : LoadDefinition :=
  { id := "NE10", rated_power := 10, priority := PRIORITY_NON_ESSENTIAL,
    is_deferrable := false, is_sheddable := true, min_on_time := 0,
    min_off_time := 0, last_state_change := 0, current_state := false }

/-- Fixture load manager for the 500 W deficit scenario: one Critical load and
three NonEssential 200 W sheddable loads, shedding not yet engaged. -/
def lmScenario : LoadManager :=
  { loads := [(crit500, LoadState.on), (ne200, LoadState.on),
      ({ ne200 with id := "NE201" }, LoadState.on),
      ({ ne200 with id := "NE202" }, LoadState.on)]
    priority_power := [500, 0, 0, 0, 600]
    priority_count := [1, 0, 0, 0, 3]
    shedding_active := false
    shed_power_target := 0
    shedding_start_time := 0
    deferred_power := 0
    next_deferrable_start := 0
    total_energy_consumed := 0
    shed_event_count := 0
    restart_event_count := 0
    min_shed_duration := 60
    max_shed_duration := 1800
    load_rotation_interval := 300 }

/-- Fixture load manager with one shed 10 W NonEssential load while shedding
is active. -/
def lmShed10 : LoadManager :=
  { lmScenario with
    loads := [(ne10_shed, LoadState.shed)]
    priority_power := [0, 0, 0, 0, 10]
    priority_count := [0, 0, 0, 0, 1]
    shedding_active := true }

/-- Fixture measurement record at rest: 48 V pack, 25 C, grid nominal. -/
def mRest : Measurements :=
  { grid_power := 0, grid_voltage := 240, grid_frequency := 60,
    pv_power_total := 0, pv_voltage := [0, 0, 0, 0], pv_current := [0, 0, 0, 0],
    pv_strings_active := 0, battery_power := 0, battery_voltage := 48,
    battery_current := 0, battery_soc := 50, battery_temp := 25,
    load_power_total := 0, load_power_critical := 0, load_power_deferrable := 0,
    irrigation_power := 0, ev_charging_power := 0, timestamp := 0 }

/-- Fixture collaborators over trivial subsystem states: identity measurement
updates, no faults, inert planning. -/
def trivialCollaborators : Collaborators Unit Unit Unit :=
  { pvUpdate := fun p m => (p, m)
    agUpdate := fun a m => (a, m)
    evUpdate := fun e m => (e, m)
    pvDetectFaults := fun p _ => (p, false)
    agCheckFaults := fun a => (a, false)
    evCheckFaults := fun e => (e, false)
    pvApplyCurtailment := fun p _ => p
    agManageIrrigation := fun a _ _ _ => a
    evManageCharging := fun e _ _ _ => e
    agEmergencyStop := fun a => a
    evPauseAll := fun e => e }

/-- Fixture system status matching controller_init defaults. -/
def statusInit : SystemStatus :=
  { mode := SystemMode.normal, grid_available := true, grid_stable := true,
    battery_available := true, pv_available := true, critical_loads_on := true,
    battery_soc_category := SocCategory.medium, alarms := 0, warnings := 0,
    last_mode_change := 0, uptime := 0 }

/-- Fixture statistics record, all accumulators zero. -/
def statsInit : SystemStatistics :=
  { pv_energy_total := 0, grid_import_total := 0, grid_export_total := 0,
    battery_charge_total := 0, battery_discharge_total := 0,
    load_energy_total := 0, irrigation_energy_total := 0,
    ev_charge_energy_total := 0, grid_outage_count := 0, load_shed_count := 0,
    island_count := 0, stats_start_time := 0 }

/-- Fixture controller over trivial collaborator states, mirroring the
controller_init defaults of controller.c:16-87 (interval 5 s, safety limits
20 kW / 50 C / 15 kW, import allowed up to 10 kW, export disallowed). -/
def ctrlBase : Controller Unit Unit Unit :=
  { mode := CtrlMode.auto
    pv_system := ()
    battery_system := battery_init
    load_manager := loads_init [] 0
    agriculture_system := ()
    ev_system := ()
    measurements := mRest
    status := statusInit
    commands := control_commands_zero
    statistics := statsInit
    control_interval := 5
    last_control_cycle := 0
    cycle_count := 0
    grid_import_allowed := true
    grid_export_allowed := false
    grid_import_limit := 10000
    grid_export_limit := 5000
    battery_soc_target := 70
    pv_self_consumption_target := 90
    max_total_power := 20000
    max_battery_temp := 50
    max_load_power := 15000
    log_level := 2
    verbose := false
    fault_mask := 0
    last_fault_time := 0
    last_fault_description := (0, 0) }

/-! ## Claim C10 -/

/-- C10: whenever grid power is available or the battery SOC is below 50,
loads_manage_shedding returns false and mutates nothing: the Load Shedding
Engine is inert while grid-connected or below 50 percent SOC, regardless
of the deficit (loads.c:86). -/
theorem c10_shedding_inert_when_grid_or_low_soc
    (lm : LoadManager) (available_power total_load battery_soc : ℚ)
    (grid_available : Bool) (now : Int)
    (h : grid_available = true ∨ battery_soc < 50) :
    loads_manage_shedding lm available_power total_load battery_soc grid_available now
      = (lm, false) := by
  unfold loads_manage_shedding
  rcases h with h | h
  · simp [h]
  · have hd : decide (battery_soc < 50) = true := decide_eq_true h
    simp [hd]

/-- Witness for C10: a manager facing a 1000 W deficit stays untouched while
the grid is available. -/
theorem c10_witness :
    loads_manage_shedding lmScenario 0 1000 80 true 5 = (lmScenario, false) :=
  c10_shedding_inert_when_grid_or_low_soc lmScenario 0 1000 80 true 5 (Or.inl rfl)

/-! ## Claim C5 -/

/-- C5: invoking the control cycle before the configured interval has elapsed
is a no-op — the call returns −1 without mutating any controller state
(controller.c:97-100 precedes every mutation). -/
theorem c5_early_cycle_is_noop (cb : Collaborators P A E) (c : Controller P A E)
    (now : Int)
    (h : ((now - c.last_control_cycle : Int) : ℚ) < c.control_interval) :
    controller_run_cycle cb c now = (-1, c) := by
  unfold controller_run_cycle
  dsimp only
  rw [if_pos h]

/-- Witness for C5: one second after the previous cycle with a 5-second
interval, the controller is returned byte-for-byte unchanged. -/
theorem c5_witness :
    controller_run_cycle trivialCollaborators ctrlBase 1 = (-1, ctrlBase) :=
  c5_early_cycle_is_noop trivialCollaborators ctrlBase 1 (by with_unfolding_all decide)

/-! ## Claim C7 -/

/-- Fixture battery at exactly 10 percent SOC, 25 C, idle. -/
def batSoc10 : Battery := { battery_init with soc_smoothed := 10 }

/-- Fixture battery at 9 percent SOC, 25 C, idle. -/
def batSoc9 : Battery := { battery_init with soc_smoothed := 9 }

/-- Counterexample to C7: at exactly 10 percent SOC with a 50 W surplus the
emergency-charge path does NOT engage — battery.c:339 requires
soc_smoothed strictly below 10 and battery.c:340 requires an excess above
100 W, so the state machine goes to Idle, not Charging. -/
theorem c7_counterexample :
    ((battery_manage_charging batSoc10 50 0 0).1).state = BatteryState.idle := by
  with_unfolding_all decide

/-- C7 (amended): for a pack at SOC strictly below 10 percent (here 9), 25 C,
with a 50 W surplus, the emergency-charge path engages: the state goes
Idle to Charging in stage Bulk and the charge power is min(100, surplus)
= the full 50 W surplus. -/
theorem c7_amended_emergency_charge :
    ((battery_manage_charging batSoc9 50 0 0).1).state = BatteryState.charging ∧
    ((battery_manage_charging batSoc9 50 0 0).1).charge_stage = ChargeStage.bulk ∧
    ((battery_manage_charging batSoc9 50 0 0).1).previous_state = BatteryState.idle ∧
    (battery_manage_charging batSoc9 50 0 0).2 = 50 := by
  with_unfolding_all decide

/-! ## Claim C6 -/

/-- Fixture measurements reporting 10 percent SOC at timestamp 1000. -/
def mSoc10 : Measurements := { mRest with battery_soc := 10, timestamp := 1000 }

/-- Counterexample to C6: on the first estimator call (no prior timestamp) the
function seeds soc_smoothed and the accumulator but returns before
recomputing capacity_remaining_wh (battery.c:212-217), so the invariant
fails: capacity_remaining_wh stays at its init value 50 while
nominal times soc/100 is 4000. -/
theorem c6_counterexample :
    ((battery_calculate_soc battery_init mSoc10 1000).1).capacity_remaining_wh ≠
      ((battery_calculate_soc battery_init mSoc10 1000).1).capacity_nominal_wh *
        ((battery_calculate_soc battery_init mSoc10 1000).1).soc_smoothed / 100 := by
  with_unfolding_all decide

/-- Helper: the main estimation pass re-establishes the capacity invariant
(battery.c:321). -/
theorem battery_calculate_soc_update_invariant (bat : Battery)
    (m : Measurements) (now : Int) :
    ((battery_calculate_soc_update bat m now).1).capacity_remaining_wh =
      ((battery_calculate_soc_update bat m now).1).capacity_nominal_wh *
        ((battery_calculate_soc_update bat m now).1).soc_smoothed / 100 := by
  have h : ∀ q c : ℚ, q / 100 * c = c * q / 100 := by
    intro q c
    ring
  exact h _ _

/-- C6 (amended): on every estimation pass that has a prior timestamp (i.e.
every pass except the seeding first call), the invariant
capacity_remaining_wh = capacity_nominal_wh * soc_smoothed / 100 holds
after the pass (battery.c:321). -/
theorem c6_amended_capacity_invariant (bat : Battery) (m : Measurements)
    (now : Int) (h : bat.last_update_ts ≠ 0) :
    ((battery_calculate_soc bat m now).1).capacity_remaining_wh =
      ((battery_calculate_soc bat m now).1).capacity_nominal_wh *
        ((battery_calculate_soc bat m now).1).soc_smoothed / 100 := by
  unfold battery_calculate_soc
  dsimp only
  rw [if_neg h]
  exact battery_calculate_soc_update_invariant bat m _

/-- Witness for C6 (amended): a second call (prior timestamp 3) restores the
invariant. -/
theorem c6_witness :
    ((battery_calculate_soc { battery_init with last_update_ts := 3 } mSoc10 1000).1).capacity_remaining_wh =
      ((battery_calculate_soc { battery_init with last_update_ts := 3 } mSoc10 1000).1).capacity_nominal_wh *
        ((battery_calculate_soc { battery_init with last_update_ts := 3 } mSoc10 1000).1).soc_smoothed / 100 :=
  c6_amended_capacity_invariant { battery_init with last_update_ts := 3 } mSoc10 1000 (by decide)

/-! ## Claim C4 -/

/-- Helper: loads_rotate_shedding never touches the shed power target. -/
theorem loads_rotate_shedding_target (lm : LoadManager) (now : Int) :
    (loads_rotate_shedding lm now).shed_power_target = lm.shed_power_target := by
  unfold loads_rotate_shedding
  repeat' split
  all_goals rfl

/-- C4: when shedding engages — it was inactive and the deficit exceeds the
100 W minimum threshold — the engine sets the shed target to 120 percent
of the deficit (loads.c:92-98), and sheds in descending priority order
until the target is met; in the concrete scenario (500 W deficit, three
sheddable NonEssential 200 W loads, no timing blocks, one Critical load
present) exactly the three NonEssential loads are shed, the target is
600 W = 1.2 × 500 W, and the Critical load is untouched. -/
theorem c4_shed_target_and_scenario :
    (∀ (lm : LoadManager) (available_power total_load battery_soc : ℚ) (now : Int),
      lm.shedding_active = false → (50 : ℚ) ≤ battery_soc →
      100 < total_load - available_power →
      ((loads_manage_shedding lm available_power total_load battery_soc false now).1).shed_power_target
        = (total_load - available_power) * (6 / 5)) ∧
    (((loads_manage_shedding lmScenario 0 500 80 false 10).1).loads.map (fun x => x.2)
        = [LoadState.on, LoadState.shed, LoadState.shed, LoadState.shed] ∧
      ((loads_manage_shedding lmScenario 0 500 80 false 10).1).shed_power_target = 600 ∧
      (loads_manage_shedding lmScenario 0 500 80 false 10).2 = true) := by
  constructor
  · intro lm available_power total_load battery_soc now h1 h2 h3
    have hsoc : decide (battery_soc < 50) = false := decide_eq_false (not_lt.mpr h2)
    unfold loads_manage_shedding
    simp only [hsoc, Bool.false_or, Bool.or_self, if_neg, Bool.false_eq_true,
      not_false_eq_true]
    rw [if_pos h3]
    simp only [h1, Bool.not_false, if_pos]
    split
    · exact loads_rotate_shedding_target _ _
    · rfl
  · refine ⟨?_, ?_, ?_⟩ <;> with_unfolding_all decide

/-- Witness for C4: engaging on a 501 W deficit sets the target to 601.2 W. -/
theorem c4_witness :
    ((loads_manage_shedding lmScenario 20 521 60 false 10).1).shed_power_target
      = (521 - 20) * (6 / 5) :=
  c4_shed_target_and_scenario.1 lmScenario 20 521 60 10 rfl (by norm_num) (by norm_num)

/-! ## Claim C8 -/

/-- Helper: with 40 W or more of available power, loads_can_shed_load always
answers false (loads.c:346). -/
theorem loads_can_shed_load_ge40 (ld : LoadDefinition) (available_power : ℚ)
    (now : Int) (h : (40 : ℚ) ≤ available_power) :
    loads_can_shed_load ld available_power now = false := by
  unfold loads_can_shed_load
  rw [if_pos h]

/-- Helper: a load that passes loads_can_shed_load is never Critical
(loads.c:353). -/
theorem loads_can_shed_load_ne_critical (ld : LoadDefinition)
    (available_power : ℚ) (now : Int)
    (h : loads_can_shed_load ld available_power now = true) :
    ld.priority ≠ PRIORITY_CRITICAL := by
  intro hp
  unfold loads_can_shed_load at h
  split_ifs at h <;> simp_all

/-- Helper: the restore pass changes nothing at one priority level when the
available power is at least 40 W. -/
theorem restore_at_priority_ge40 (prio : Int) (available_power : ℚ) (now : Int)
    (ls : List (LoadDefinition × LoadState)) (excess : ℚ) (rc : Nat)
    (h : (40 : ℚ) ≤ available_power) :
    (restore_at_priority prio available_power now ls excess rc).1 = ls := by
  induction ls generalizing excess rc with
  | nil => rfl
  | cons x rest ih =>
    have hc : restore_candidate prio available_power now x = false := by
      unfold restore_candidate
      simp [loads_can_shed_load_ge40 x.1 available_power now h]
    unfold restore_at_priority
    rw [hc]
    simp only [Bool.false_eq_true, if_neg, not_false_eq_true]
    rw [ih]

/-- Helper: the restore loop changes nothing when the available power is at
least 40 W. -/
theorem restore_loop_ge40 (available_power : ℚ) (now : Int) (prios : List Int)
    (ls : List (LoadDefinition × LoadState)) (excess : ℚ) (rc : Nat)
    (h : (40 : ℚ) ≤ available_power) :
    (restore_loop available_power now prios ls excess rc).1 = ls := by
  induction prios generalizing ls excess rc with
  | nil => rfl
  | cons p prios ih =>
    unfold restore_loop
    rw [ih]
    rw [restore_at_priority_ge40 _ _ _ _ _ _ h]

/-- Helper: the restore pass keeps every Critical-priority entry untouched. -/
theorem restore_at_priority_critical (prio : Int) (available_power : ℚ)
    (now : Int) (ls : List (LoadDefinition × LoadState)) (excess : ℚ) (rc : Nat)
    (x : LoadDefinition × LoadState) (hx : x ∈ ls)
    (hcrit : x.1.priority = PRIORITY_CRITICAL) :
    x ∈ (restore_at_priority prio available_power now ls excess rc).1 := by
  induction ls generalizing excess rc with
  | nil => cases hx
  | cons y rest ih =>
    unfold restore_at_priority
    rcases List.mem_cons.mp hx with rfl | hx
    · have hc : restore_candidate prio available_power now x = false := by
        cases hs : loads_can_shed_load x.1 available_power now with
        | false => unfold restore_candidate; simp [hs]
        | true => exact absurd hcrit (loads_can_shed_load_ne_critical _ _ _ hs)
      rw [hc]
      simp only [Bool.false_eq_true, if_neg, not_false_eq_true]
      exact List.mem_cons_self _ _
    · split_ifs <;> exact List.mem_cons_of_mem _ (ih _ _ hx)

/-- Helper: the restore loop keeps every Critical-priority entry untouched. -/
theorem restore_loop_critical (available_power : ℚ) (now : Int)
    (prios : List Int) (ls : List (LoadDefinition × LoadState)) (excess : ℚ)
    (rc : Nat) (x : LoadDefinition × LoadState) (hx : x ∈ ls)
    (hcrit : x.1.priority = PRIORITY_CRITICAL) :
    x ∈ (restore_loop available_power now prios ls excess rc).1 := by
  induction prios generalizing ls excess rc with
  | nil => exact hx
  | cons p prios ih =>
    unfold restore_loop
    exact ih _ _ _ (restore_at_priority_critical _ _ _ _ _ _ _ hx hcrit)

/-- Counterexample to C8: shedding active, one shed NonEssential 10 W load,
surplus 300 W over the load (deficit −300 W, beyond the −200 W restore
threshold) — the load fits the surplus but is NOT restored, because
loads_restore_shed re-uses loads_can_shed_load (loads.c:162), which
answers false whenever available power is at least 40 W. -/
theorem c8_counterexample :
    ((loads_manage_shedding lmShed10 300 0 80 false 0).1).loads.map (fun x => x.2)
      = [LoadState.shed] := by
  with_unfolding_all decide

/-- C8 (amended): restoration scans shed loads in ascending priority order,
but a shed load is restored only when it passes the shed-eligibility check
(non-Critical priority, sheddable flag, timing, and available power
strictly below the 40 W ceiling guard) and its rated power fits the
remaining surplus.  Consequently (1) with available power of 40 W or more
loads_restore_shed changes no load, (2) Critical-priority entries are
never restored, and (3) an eligible NonEssential shed load whose rated
power fits is restored. -/
theorem c8_amended_restore_guarded :
    (∀ (lm : LoadManager) (available_power : ℚ) (now : Int),
      (40 : ℚ) ≤ available_power →
      (loads_restore_shed lm available_power now).loads = lm.loads) ∧
    (∀ (lm : LoadManager) (available_power : ℚ) (now : Int)
      (x : LoadDefinition × LoadState), x ∈ lm.loads →
      x.1.priority = PRIORITY_CRITICAL →
      x ∈ (loads_restore_shed lm available_power now).loads) ∧
    ((loads_restore_shed lmShed10 30 0).loads.map (fun x => x.2)
      = [LoadState.on]) := by
  refine ⟨?_, ?_, ?_⟩
  · intro lm available_power now h
    unfold loads_restore_shed
    dsimp only
    split
    · exact restore_loop_ge40 _ _ _ _ _ _ h
    · exact restore_loop_ge40 _ _ _ _ _ _ h
  · intro lm available_power now x hx hcrit
    unfold loads_restore_shed
    dsimp only
    split
    · exact restore_loop_critical _ _ _ _ _ _ _ hx hcrit
    · exact restore_loop_critical _ _ _ _ _ _ _ hx hcrit
  · with_unfolding_all decide

/-- Witness for C8 (amended): with 300 W available (at or above the 40 W
guard) the restore pass leaves the load list untouched. -/
theorem c8_witness :
    (loads_restore_shed lmShed10 300 0).loads = lmShed10.loads :=
  c8_amended_restore_guarded.1 lmShed10 300 0 (by norm_num)

/-! ## Claim C3: per-block facts about battery_check_limits -/

/-- Helper: check_overvoltage leaves undervoltage_fault untouched. -/
theorem check_overvoltage_keeps_undervoltage_fault (bat : Battery) (cell_v : ℚ) (now : Int) :
    ((check_overvoltage bat cell_v now).1).undervoltage_fault = bat.undervoltage_fault := by
  unfold check_overvoltage
  split_ifs <;> rfl

/-- Helper: check_overvoltage leaves last_undervoltage untouched. -/
theorem check_overvoltage_keeps_last_undervoltage (bat : Battery) (cell_v : ℚ) (now : Int) :
    ((check_overvoltage bat cell_v now).1).last_undervoltage = bat.last_undervoltage := by
  unfold check_overvoltage
  split_ifs <;> rfl

/-- Helper: check_overvoltage leaves overcurrent_fault untouched. -/
theorem check_overvoltage_keeps_overcurrent_fault (bat : Battery) (cell_v : ℚ) (now : Int) :
    ((check_overvoltage bat cell_v now).1).overcurrent_fault = bat.overcurrent_fault := by
  unfold check_overvoltage
  split_ifs <;> rfl

/-- Helper: check_overvoltage leaves last_overcurrent untouched. -/
theorem check_overvoltage_keeps_last_overcurrent (bat : Battery) (cell_v : ℚ) (now : Int) :
    ((check_overvoltage bat cell_v now).1).last_overcurrent = bat.last_overcurrent := by
  unfold check_overvoltage
  split_ifs <;> rfl

/-- Helper: check_overvoltage leaves overtemperature_fault untouched. -/
theorem check_overvoltage_keeps_overtemperature_fault (bat : Battery) (cell_v : ℚ) (now : Int) :
    ((check_overvoltage bat cell_v now).1).overtemperature_fault = bat.overtemperature_fault := by
  unfold check_overvoltage
  split_ifs <;> rfl

/-- Helper: check_overvoltage leaves last_overtemperature untouched. -/
theorem check_overvoltage_keeps_last_overtemperature (bat : Battery) (cell_v : ℚ) (now : Int) :
    ((check_overvoltage bat cell_v now).1).last_overtemperature = bat.last_overtemperature := by
  unfold check_overvoltage
  split_ifs <;> rfl

/-- Helper: check_overvoltage leaves chemistry untouched. -/
theorem check_overvoltage_keeps_chemistry (bat : Battery) (cell_v : ℚ) (now : Int) :
    ((check_overvoltage bat cell_v now).1).chemistry = bat.chemistry := by
  unfold check_overvoltage
  split_ifs <;> rfl

/-- Helper: check_overvoltage leaves max_charge_current_a untouched. -/
theorem check_overvoltage_keeps_max_charge_current_a (bat : Battery) (cell_v : ℚ) (now : Int) :
    ((check_overvoltage bat cell_v now).1).max_charge_current_a = bat.max_charge_current_a := by
  unfold check_overvoltage
  split_ifs <;> rfl

/-- Helper: check_overvoltage leaves max_discharge_current_a untouched. -/
theorem check_overvoltage_keeps_max_discharge_current_a (bat : Battery) (cell_v : ℚ) (now : Int) :
    ((check_overvoltage bat cell_v now).1).max_discharge_current_a = bat.max_discharge_current_a := by
  unfold check_overvoltage
  split_ifs <;> rfl

/-- Helper: check_undervoltage leaves overvoltage_fault untouched. -/
theorem check_undervoltage_keeps_overvoltage_fault (bat : Battery) (cell_v : ℚ) (now : Int) :
    ((check_undervoltage bat cell_v now).1).overvoltage_fault = bat.overvoltage_fault := by
  unfold check_undervoltage
  split_ifs <;> rfl

/-- Helper: check_undervoltage leaves overcurrent_fault untouched. -/
theorem check_undervoltage_keeps_overcurrent_fault (bat : Battery) (cell_v : ℚ) (now : Int) :
    ((check_undervoltage bat cell_v now).1).overcurrent_fault = bat.overcurrent_fault := by
  unfold check_undervoltage
  split_ifs <;> rfl

/-- Helper: check_undervoltage leaves last_overcurrent untouched. -/
theorem check_undervoltage_keeps_last_overcurrent (bat : Battery) (cell_v : ℚ) (now : Int) :
    ((check_undervoltage bat cell_v now).1).last_overcurrent = bat.last_overcurrent := by
  unfold check_undervoltage
  split_ifs <;> rfl

/-- Helper: check_undervoltage leaves overtemperature_fault untouched. -/
theorem check_undervoltage_keeps_overtemperature_fault (bat : Battery) (cell_v : ℚ) (now : Int) :
    ((check_undervoltage bat cell_v now).1).overtemperature_fault = bat.overtemperature_fault := by
  unfold check_undervoltage
  split_ifs <;> rfl

/-- Helper: check_undervoltage leaves last_overtemperature untouched. -/
theorem check_undervoltage_keeps_last_overtemperature (bat : Battery) (cell_v : ℚ) (now : Int) :
    ((check_undervoltage bat cell_v now).1).last_overtemperature = bat.last_overtemperature := by
  unfold check_undervoltage
  split_ifs <;> rfl

/-- Helper: check_undervoltage leaves max_charge_current_a untouched. -/
theorem check_undervoltage_keeps_max_charge_current_a (bat : Battery) (cell_v : ℚ) (now : Int) :
    ((check_undervoltage bat cell_v now).1).max_charge_current_a = bat.max_charge_current_a := by
  unfold check_undervoltage
  split_ifs <;> rfl

/-- Helper: check_undervoltage leaves max_discharge_current_a untouched. -/
theorem check_undervoltage_keeps_max_discharge_current_a (bat : Battery) (cell_v : ℚ) (now : Int) :
    ((check_undervoltage bat cell_v now).1).max_discharge_current_a = bat.max_discharge_current_a := by
  unfold check_undervoltage
  split_ifs <;> rfl

/-- Helper: check_overcurrent leaves overvoltage_fault untouched. -/
theorem check_overcurrent_keeps_overvoltage_fault (bat : Battery) (current : ℚ) (now : Int) :
    ((check_overcurrent bat current now).1).overvoltage_fault = bat.overvoltage_fault := by
  unfold check_overcurrent
  dsimp only
  split_ifs <;> rfl

/-- Helper: check_overcurrent leaves undervoltage_fault untouched. -/
theorem check_overcurrent_keeps_undervoltage_fault (bat : Battery) (current : ℚ) (now : Int) :
    ((check_overcurrent bat current now).1).undervoltage_fault = bat.undervoltage_fault := by
  unfold check_overcurrent
  dsimp only
  split_ifs <;> rfl

/-- Helper: check_overcurrent leaves overtemperature_fault untouched. -/
theorem check_overcurrent_keeps_overtemperature_fault (bat : Battery) (current : ℚ) (now : Int) :
    ((check_overcurrent bat current now).1).overtemperature_fault = bat.overtemperature_fault := by
  unfold check_overcurrent
  dsimp only
  split_ifs <;> rfl

/-- Helper: check_overcurrent leaves last_overtemperature untouched. -/
theorem check_overcurrent_keeps_last_overtemperature (bat : Battery) (current : ℚ) (now : Int) :
    ((check_overcurrent bat current now).1).last_overtemperature = bat.last_overtemperature := by
  unfold check_overcurrent
  dsimp only
  split_ifs <;> rfl

/-- Helper: check_overtemperature leaves overvoltage_fault untouched. -/
theorem check_overtemperature_keeps_overvoltage_fault (bat : Battery) (temp : ℚ) (now : Int) :
    ((check_overtemperature bat temp now).1).overvoltage_fault = bat.overvoltage_fault := by
  unfold check_overtemperature
  split_ifs <;> rfl

/-- Helper: check_overtemperature leaves undervoltage_fault untouched. -/
theorem check_overtemperature_keeps_undervoltage_fault (bat : Battery) (temp : ℚ) (now : Int) :
    ((check_overtemperature bat temp now).1).undervoltage_fault = bat.undervoltage_fault := by
  unfold check_overtemperature
  split_ifs <;> rfl

/-- Helper: check_overtemperature leaves overcurrent_fault untouched. -/
theorem check_overtemperature_keeps_overcurrent_fault (bat : Battery) (temp : ℚ) (now : Int) :
    ((check_overtemperature bat temp now).1).overcurrent_fault = bat.overcurrent_fault := by
  unfold check_overtemperature
  split_ifs <;> rfl

/-- Helper: closed form of the overvoltage block of battery_check_limits. -/
theorem check_overvoltage_fault_eq (bat : Battery) (cell_v : ℚ) (now : Int) :
    ((check_overvoltage bat cell_v now).1).overvoltage_fault =
      (if cell_v > cell_v_max_of bat.chemistry then true
       else if cell_v < cell_v_max_hyst_of bat.chemistry ∧ bat.last_overvoltage then false
       else bat.overvoltage_fault) := by
  unfold check_overvoltage
  split_ifs <;> rfl

/-- Helper: closed form of the undervoltage block of battery_check_limits. -/
theorem check_undervoltage_fault_eq (bat : Battery) (cell_v : ℚ) (now : Int) :
    ((check_undervoltage bat cell_v now).1).undervoltage_fault =
      (if cell_v < cell_v_min_of bat.chemistry then true
       else if cell_v > cell_v_min_hyst_of bat.chemistry ∧ bat.last_undervoltage then false
       else bat.undervoltage_fault) := by
  unfold check_undervoltage
  split_ifs <;> rfl

/-- Helper: closed form of the overcurrent block of battery_check_limits. -/
theorem check_overcurrent_fault_eq (bat : Battery) (current : ℚ) (now : Int) :
    ((check_overcurrent bat current now).1).overcurrent_fault =
      (if current > bat.max_charge_current_a * (6/5) then true
       else if current < -(bat.max_discharge_current_a * (6/5)) then true
       else if current < bat.max_charge_current_a * (11/10) ∧
           current > -(bat.max_discharge_current_a * (11/10)) ∧ bat.last_overcurrent then false
       else bat.overcurrent_fault) := by
  unfold check_overcurrent
  dsimp only
  split_ifs <;> rfl

/-- Helper: closed form of the overtemperature block of battery_check_limits. -/
theorem check_overtemperature_fault_eq (bat : Battery) (temp : ℚ) (now : Int) :
    ((check_overtemperature bat temp now).1).overtemperature_fault =
      (if temp > 60 then true
       else if temp < 55 ∧ bat.last_overtemperature then false
       else bat.overtemperature_fault) := by
  unfold check_overtemperature
  split_ifs <;> rfl

/-- Helper: the final Fault-state transition of battery_check_limits does not
alter the overvoltage bit. -/
theorem fault_transition_keeps_overvoltage_fault (c : Prop) [Decidable c] (b : Battery) :
    (if c then { b with previous_state := b.state, state := BatteryState.fault, fault_clear_attempts := 0 } else b).overvoltage_fault = b.overvoltage_fault := by
  split <;> rfl

/-- Helper: the final Fault-state transition of battery_check_limits does not
alter the undervoltage bit. -/
theorem fault_transition_keeps_undervoltage_fault (c : Prop) [Decidable c] (b : Battery) :
    (if c then { b with previous_state := b.state, state := BatteryState.fault, fault_clear_attempts := 0 } else b).undervoltage_fault = b.undervoltage_fault := by
  split <;> rfl

/-- Helper: the final Fault-state transition of battery_check_limits does not
alter the overcurrent bit. -/
theorem fault_transition_keeps_overcurrent_fault (c : Prop) [Decidable c] (b : Battery) :
    (if c then { b with previous_state := b.state, state := BatteryState.fault, fault_clear_attempts := 0 } else b).overcurrent_fault = b.overcurrent_fault := by
  split <;> rfl

/-- Helper: the final Fault-state transition of battery_check_limits does not
alter the overtemperature bit. -/
theorem fault_transition_keeps_overtemperature_fault (c : Prop) [Decidable c] (b : Battery) :
    (if c then { b with previous_state := b.state, state := BatteryState.fault, fault_clear_attempts := 0 } else b).overtemperature_fault = b.overtemperature_fault := by
  split <;> rfl

/-- Helper: closed form of battery_check_limits for the overtemperature bit:
fresh trip strictly above 60 C, recovery strictly below 55 C, otherwise
unchanged. -/
theorem battery_check_limits_ot_eq (bat : Battery) (m : Measurements) (now : Int) :
    ((battery_check_limits bat m now).1).overtemperature_fault =
      (if m.battery_temp > 60 then true
       else if m.battery_temp < 55 ∧ bat.last_overtemperature then false
       else bat.overtemperature_fault) := by
  unfold battery_check_limits
  dsimp only
  rw [fault_transition_keeps_overtemperature_fault]
  simp only [check_overtemperature_fault_eq, check_overcurrent_keeps_last_overtemperature,
      check_overcurrent_keeps_overtemperature_fault,
      check_undervoltage_keeps_last_overtemperature,
      check_undervoltage_keeps_overtemperature_fault,
      check_overvoltage_keeps_last_overtemperature,
      check_overvoltage_keeps_overtemperature_fault]

/-- Helper: closed form of battery_check_limits for the overvoltage bit. -/
theorem battery_check_limits_ov_eq (bat : Battery) (m : Measurements) (now : Int) :
    ((battery_check_limits bat m now).1).overvoltage_fault =
      (if battery_cell_v bat m > cell_v_max_of bat.chemistry then true
       else if battery_cell_v bat m < cell_v_max_hyst_of bat.chemistry ∧ bat.last_overvoltage then false
       else bat.overvoltage_fault) := by
  unfold battery_check_limits
  dsimp only
  rw [fault_transition_keeps_overvoltage_fault]
  simp only [check_overtemperature_keeps_overvoltage_fault,
      check_overcurrent_keeps_overvoltage_fault,
      check_undervoltage_keeps_overvoltage_fault, check_overvoltage_fault_eq]

/-- Helper: closed form of battery_check_limits for the undervoltage bit. -/
theorem battery_check_limits_uv_eq (bat : Battery) (m : Measurements) (now : Int) :
    ((battery_check_limits bat m now).1).undervoltage_fault =
      (if battery_cell_v bat m < cell_v_min_of bat.chemistry then true
       else if battery_cell_v bat m > cell_v_min_hyst_of bat.chemistry ∧ bat.last_undervoltage then false
       else bat.undervoltage_fault) := by
  unfold battery_check_limits
  dsimp only
  rw [fault_transition_keeps_undervoltage_fault]
  simp only [check_overtemperature_keeps_undervoltage_fault,
      check_overcurrent_keeps_undervoltage_fault, check_undervoltage_fault_eq,
      check_overvoltage_keeps_chemistry, check_overvoltage_keeps_undervoltage_fault,
      check_overvoltage_keeps_last_undervoltage]

/-- Helper: closed form of battery_check_limits for the overcurrent bit. -/
theorem battery_check_limits_oc_eq (bat : Battery) (m : Measurements) (now : Int) :
    ((battery_check_limits bat m now).1).overcurrent_fault =
      (if m.battery_current > bat.max_charge_current_a * (6/5) then true
       else if m.battery_current < -(bat.max_discharge_current_a * (6/5)) then true
       else if m.battery_current < bat.max_charge_current_a * (11/10) ∧
           m.battery_current > -(bat.max_discharge_current_a * (11/10)) ∧ bat.last_overcurrent then false
       else bat.overcurrent_fault) := by
  unfold battery_check_limits
  dsimp only
  rw [fault_transition_keeps_overcurrent_fault]
  simp only [check_overtemperature_keeps_overcurrent_fault, check_overcurrent_fault_eq,
      check_undervoltage_keeps_max_charge_current_a,
      check_undervoltage_keeps_max_discharge_current_a,
      check_undervoltage_keeps_overcurrent_fault, check_undervoltage_keeps_last_overcurrent,
      check_overvoltage_keeps_max_charge_current_a,
      check_overvoltage_keeps_max_discharge_current_a,
      check_overvoltage_keeps_overcurrent_fault, check_overvoltage_keeps_last_overcurrent]

/-- Helper: the overvoltage recovery threshold lies strictly below the trip
threshold for every chemistry (battery.c:587-601). -/
theorem cell_v_hyst_lt_max (c : BatteryChemistry) :
    cell_v_max_hyst_of c < cell_v_max_of c := by
  cases c <;> norm_num [cell_v_max_hyst_of, cell_v_max_of]

/-- Helper: the undervoltage recovery threshold lies strictly above the trip
threshold for every chemistry (battery.c:587-601). -/
theorem cell_v_min_lt_hyst (c : BatteryChemistry) :
    cell_v_min_of c < cell_v_min_hyst_of c := by
  cases c <;> norm_num [cell_v_min_of, cell_v_min_hyst_of]

/-- Fixture: battery with a latched overtemperature fault and the hysteresis
static in sync. -/
def batOtFault : Battery :=
  { battery_init with
    overtemperature_fault := true
    last_overtemperature := true
    state := BatteryState.fault }

/-- Counterexample to C3: the claim says a sample at or below the recovery
threshold clears the fault, so a sample at exactly 55 C (the
overtemperature recovery threshold) would clear it; battery.c:674 clears
only strictly below the threshold, so the fault stays set. -/
theorem c3_counterexample :
    ((battery_check_limits batOtFault { mRest with battery_temp := 55 } 0).1).overtemperature_fault
      = true := by
  with_unfolding_all decide

/-- C3 (amended): for each battery fault kind, a single sample strictly
beyond the trip threshold sets the fault bit; once set, a sample that has
not strictly crossed the recovery threshold (in particular any sample
between recovery and trip) leaves it set; and a sample strictly beyond
the recovery threshold clears it, provided the hysteresis static agrees
with the fault bit (which battery_check_limits re-establishes on every
call).  A sample exactly at the recovery threshold does NOT clear the
fault. -/
theorem c3_amended_fault_hysteresis (bat : Battery) (m : Measurements) (now : Int) :
    ((m.battery_temp > 60 →
        ((battery_check_limits bat m now).1).overtemperature_fault = true) ∧
     (bat.overtemperature_fault = true → 55 ≤ m.battery_temp →
        ((battery_check_limits bat m now).1).overtemperature_fault = true) ∧
     (bat.last_overtemperature = bat.overtemperature_fault →
      bat.overtemperature_fault = true → m.battery_temp < 55 →
        ((battery_check_limits bat m now).1).overtemperature_fault = false)) ∧
    ((battery_cell_v bat m > cell_v_max_of bat.chemistry →
        ((battery_check_limits bat m now).1).overvoltage_fault = true) ∧
     (bat.overvoltage_fault = true →
      cell_v_max_hyst_of bat.chemistry ≤ battery_cell_v bat m →
        ((battery_check_limits bat m now).1).overvoltage_fault = true) ∧
     (bat.last_overvoltage = bat.overvoltage_fault → bat.overvoltage_fault = true →
      battery_cell_v bat m < cell_v_max_hyst_of bat.chemistry →
        ((battery_check_limits bat m now).1).overvoltage_fault = false)) ∧
    ((battery_cell_v bat m < cell_v_min_of bat.chemistry →
        ((battery_check_limits bat m now).1).undervoltage_fault = true) ∧
     (bat.undervoltage_fault = true →
      battery_cell_v bat m ≤ cell_v_min_hyst_of bat.chemistry →
        ((battery_check_limits bat m now).1).undervoltage_fault = true) ∧
     (bat.last_undervoltage = bat.undervoltage_fault → bat.undervoltage_fault = true →
      cell_v_min_hyst_of bat.chemistry < battery_cell_v bat m →
        ((battery_check_limits bat m now).1).undervoltage_fault = false)) ∧
    ((m.battery_current > bat.max_charge_current_a * (6/5) →
        ((battery_check_limits bat m now).1).overcurrent_fault = true) ∧
     (m.battery_current < -(bat.max_discharge_current_a * (6/5)) →
        ((battery_check_limits bat m now).1).overcurrent_fault = true) ∧
     (bat.overcurrent_fault = true →
      (bat.max_charge_current_a * (11/10) ≤ m.battery_current ∨
       m.battery_current ≤ -(bat.max_discharge_current_a * (11/10))) →
        ((battery_check_limits bat m now).1).overcurrent_fault = true) ∧
     (0 ≤ bat.max_charge_current_a → 0 ≤ bat.max_discharge_current_a →
      bat.last_overcurrent = bat.overcurrent_fault → bat.overcurrent_fault = true →
      m.battery_current < bat.max_charge_current_a * (11/10) →
      -(bat.max_discharge_current_a * (11/10)) < m.battery_current →
        ((battery_check_limits bat m now).1).overcurrent_fault = false)) := by
  refine ⟨⟨?_, ?_, ?_⟩, ⟨?_, ?_, ?_⟩, ⟨?_, ?_, ?_⟩, ⟨?_, ?_, ?_, ?_⟩⟩
  · intro h
    rw [battery_check_limits_ot_eq, if_pos h]
  · intro hf h55
    rw [battery_check_limits_ot_eq]
    split_ifs with h1 h2
    · rfl
    · exact absurd h2.1 (not_lt.mpr h55)
    · exact hf
  · intro hs hf hlt
    rw [battery_check_limits_ot_eq, if_neg (by linarith : ¬ m.battery_temp > 60),
      if_pos ⟨hlt, hs.trans hf⟩]
  · intro h
    rw [battery_check_limits_ov_eq, if_pos h]
  · intro hf hge
    rw [battery_check_limits_ov_eq]
    split_ifs with h1 h2
    · rfl
    · exact absurd h2.1 (not_lt.mpr hge)
    · exact hf
  · intro hs hf hlt
    have hmax := cell_v_hyst_lt_max bat.chemistry
    rw [battery_check_limits_ov_eq,
      if_neg (by linarith : ¬ battery_cell_v bat m > cell_v_max_of bat.chemistry),
      if_pos ⟨hlt, hs.trans hf⟩]
  · intro h
    rw [battery_check_limits_uv_eq, if_pos h]
  · intro hf hle
    rw [battery_check_limits_uv_eq]
    split_ifs with h1 h2
    · rfl
    · exact absurd h2.1 (not_lt.mpr hle)
    · exact hf
  · intro hs hf hgt
    have hmin := cell_v_min_lt_hyst bat.chemistry
    rw [battery_check_limits_uv_eq,
      if_neg (by linarith : ¬ battery_cell_v bat m < cell_v_min_of bat.chemistry),
      if_pos ⟨hgt, hs.trans hf⟩]
  · intro h
    rw [battery_check_limits_oc_eq, if_pos h]
  · intro h
    rw [battery_check_limits_oc_eq]
    by_cases h1 : m.battery_current > bat.max_charge_current_a * (6/5)
    · rw [if_pos h1]
    · rw [if_neg h1, if_pos h]
  · intro hf hband
    rw [battery_check_limits_oc_eq]
    split_ifs with h1 h2 h3
    · rfl
    · rfl
    · rcases hband with hb | hb
      · exact absurd h3.1 (not_lt.mpr hb)
      · exact absurd h3.2.1 (not_lt.mpr hb)
    · exact hf
  · intro hmc hmd hs hf hlt hgt
    have h1 : bat.max_charge_current_a * (11/10) ≤ bat.max_charge_current_a * (6/5) := by
      nlinarith
    have h2 : -(bat.max_discharge_current_a * (6/5)) ≤
        -(bat.max_discharge_current_a * (11/10)) := by
      nlinarith
    rw [battery_check_limits_oc_eq,
      if_neg (by linarith : ¬ m.battery_current > bat.max_charge_current_a * (6/5)),
      if_neg (by linarith : ¬ m.battery_current < -(bat.max_discharge_current_a * (6/5))),
      if_pos ⟨hlt, hgt, hs.trans hf⟩]

/-- Witness for C3 (amended): a sample at 54 C, strictly below the recovery
threshold, clears the latched overtemperature fault. -/
theorem c3_witness :
    ((battery_check_limits batOtFault { mRest with battery_temp := 54 } 0).1).overtemperature_fault
      = false :=
  (c3_amended_fault_hysteresis batOtFault { mRest with battery_temp := 54 } 0).1.2.2
    rfl rfl (by decide)

/-! ## Claim C9 -/

/-- Helper: the main estimation pass never writes the battery_power
measurement field. -/
theorem battery_calculate_soc_update_keeps_battery_power (bat : Battery)
    (m : Measurements) (now : Int) :
    ((battery_calculate_soc_update bat m now).2).battery_power = m.battery_power := rfl

/-- Helper: the SOC estimator never writes the battery_power measurement
field. -/
theorem battery_calculate_soc_keeps_battery_power (bat : Battery)
    (m : Measurements) (now : Int) :
    ((battery_calculate_soc bat m now).2).battery_power = m.battery_power := by
  unfold battery_calculate_soc
  dsimp only
  split
  · rfl
  · exact battery_calculate_soc_update_keeps_battery_power _ _ _

/-- Helper: the main estimation pass never writes the battery_voltage
measurement field. -/
theorem battery_calculate_soc_update_keeps_battery_voltage (bat : Battery)
    (m : Measurements) (now : Int) :
    ((battery_calculate_soc_update bat m now).2).battery_voltage = m.battery_voltage := rfl

/-- Helper: the SOC estimator never writes the battery_voltage measurement
field. -/
theorem battery_calculate_soc_keeps_battery_voltage (bat : Battery)
    (m : Measurements) (now : Int) :
    ((battery_calculate_soc bat m now).2).battery_voltage = m.battery_voltage := by
  unfold battery_calculate_soc
  dsimp only
  split
  · rfl
  · exact battery_calculate_soc_update_keeps_battery_voltage _ _ _

/-- Helper: the main estimation pass never writes the battery_current
measurement field. -/
theorem battery_calculate_soc_update_keeps_battery_current (bat : Battery)
    (m : Measurements) (now : Int) :
    ((battery_calculate_soc_update bat m now).2).battery_current = m.battery_current := rfl

/-- Helper: the SOC estimator never writes the battery_current measurement
field. -/
theorem battery_calculate_soc_keeps_battery_current (bat : Battery)
    (m : Measurements) (now : Int) :
    ((battery_calculate_soc bat m now).2).battery_current = m.battery_current := by
  unfold battery_calculate_soc
  dsimp only
  split
  · rfl
  · exact battery_calculate_soc_update_keeps_battery_current _ _ _

/-- Helper: the intake phase publishes the nominal pack voltage as the
battery_voltage measurement (battery.c:173). -/
theorem battery_update_intake_battery_voltage (bat : Battery)
    (m : Measurements) (now : Int) :
    ((battery_update_intake bat m now).2).battery_voltage = bat.nominal_voltage := by
  unfold battery_update_intake
  dsimp only
  split_ifs <;> rfl

/-- Helper: the intake phase never writes the battery_current measurement. -/
theorem battery_update_intake_battery_current (bat : Battery)
    (m : Measurements) (now : Int) :
    ((battery_update_intake bat m now).2).battery_current = m.battery_current := by
  unfold battery_update_intake
  dsimp only
  split_ifs <;> rfl

/-- Helper: battery_update_measurements publishes the nominal pack voltage as
the battery_voltage measurement. -/
theorem battery_update_measurements_battery_voltage (bat : Battery)
    (m : Measurements) (now : Int) :
    ((battery_update_measurements bat m now).2).battery_voltage
      = bat.nominal_voltage := by
  unfold battery_update_measurements
  dsimp only
  split <;>
  · rw [battery_calculate_soc_keeps_battery_voltage]
    exact battery_update_intake_battery_voltage bat m now

/-- Helper: battery_update_measurements leaves the battery_current
measurement unchanged. -/
theorem battery_update_measurements_battery_current (bat : Battery)
    (m : Measurements) (now : Int) :
    ((battery_update_measurements bat m now).2).battery_current
      = m.battery_current := by
  unfold battery_update_measurements
  dsimp only
  split <;>
  · rw [battery_calculate_soc_keeps_battery_current]
    exact battery_update_intake_battery_current bat m now

/-- C9 part 1 helper: after battery_update_measurements with a nonzero
remaining capacity, the battery_power measurement equals the remaining
capacity in watt-hours (battery.c:169-170; the voltage-times-current
computation at line 174 is commented out in the source). -/
theorem battery_update_intake_battery_power (bat : Battery)
    (m : Measurements) (now : Int) (h : bat.capacity_remaining_wh ≠ 0) :
    ((battery_update_intake bat m now).2).battery_power
      = bat.capacity_remaining_wh := by
  unfold battery_update_intake
  dsimp only
  split_ifs <;> simp_all

/-- C9 part 1 main helper: battery_update_measurements publishes the entry
value of capacity_remaining_wh as battery_power when it is nonzero. -/
theorem battery_update_measurements_battery_power (bat : Battery)
    (m : Measurements) (now : Int) (h : bat.capacity_remaining_wh ≠ 0) :
    ((battery_update_measurements bat m now).2).battery_power
      = bat.capacity_remaining_wh := by
  unfold battery_update_measurements
  dsimp only
  split <;>
  · rw [battery_calculate_soc_keeps_battery_power]
    exact battery_update_intake_battery_power bat m now h

/-- Fixture: battery holding 4000 Wh of remaining capacity (60 percent
smoothed SOC). -/
def batCap4000 : Battery :=
  { battery_init with
    capacity_remaining_wh := 4000
    soc_smoothed := 60 }

/-- Fixture: resting measurements with a 10 A battery current and 60 percent
reported SOC at timestamp 100. -/
def mC9 : Measurements :=
  { mRest with
    battery_current := 10
    battery_soc := 60
    timestamp := 100 }

/-- Helper: when the grid is available, import is allowed, and the raw
balance is a positive import within the configured limit, the published
grid power is exactly consumption − generation − battery_power over the
post-update measurement fields (controller.c:159-174). -/
theorem controller_update_measurements_grid_balance (cb : Collaborators P A E)
    (c : Controller P A E) (now : Int)
    (hga : c.status.grid_available = true)
    (himp : c.grid_import_allowed = true)
    (hpos : 0 < (controller_update_measurements cb c now).measurements.load_power_total
      + (controller_update_measurements cb c now).measurements.irrigation_power
      + (controller_update_measurements cb c now).measurements.ev_charging_power
      - (controller_update_measurements cb c now).measurements.pv_power_total
      - (controller_update_measurements cb c now).measurements.battery_power)
    (hlim : (controller_update_measurements cb c now).measurements.load_power_total
      + (controller_update_measurements cb c now).measurements.irrigation_power
      + (controller_update_measurements cb c now).measurements.ev_charging_power
      - (controller_update_measurements cb c now).measurements.pv_power_total
      - (controller_update_measurements cb c now).measurements.battery_power
      ≤ c.grid_import_limit) :
    (controller_update_measurements cb c now).measurements.grid_power
      = (controller_update_measurements cb c now).measurements.load_power_total
      + (controller_update_measurements cb c now).measurements.irrigation_power
      + (controller_update_measurements cb c now).measurements.ev_charging_power
      - (controller_update_measurements cb c now).measurements.pv_power_total
      - (controller_update_measurements cb c now).measurements.battery_power := by
  unfold controller_update_measurements at hpos hlim ⊢
  dsimp only at hpos hlim ⊢
  simp only [hga, eq_self_iff_true, if_true] at hpos hlim ⊢
  rw [if_pos hpos, himp]
  simp only [Bool.not_true, Bool.false_or]
  rw [decide_eq_false (not_lt.mpr hlim)]
  simp only [Bool.false_eq_true, if_false]

/-- Helper: the optimizer always sets the battery setpoint command to the
measured battery_power (controller.c:293). -/
theorem controller_optimize_battery_setpoint (cb : Collaborators P A E)
    (c : Controller P A E) (now : Int) :
    (controller_optimize_energy_flow cb c now).commands.battery_setpoint
      = c.measurements.battery_power := rfl

/-- C9: battery_update_measurements publishes the pack remaining capacity
(Wh) as the battery_power measurement — not the electrical power
voltage × current (that computation, battery.c:174, is commented out) —
and this value then feeds the controller grid-power balance
(controller.c:165) and the battery setpoint command (controller.c:293).
Concretely, the 4000 Wh fixture yields battery_power 4000 while
voltage × current is 48 × 10 = 480. -/
theorem c9_battery_power_is_capacity :
    (∀ (bat : Battery) (m : Measurements) (now : Int),
      bat.capacity_remaining_wh ≠ 0 →
      ((battery_update_measurements bat m now).2).battery_power
        = bat.capacity_remaining_wh) ∧
    (∀ (P A E : Type) (cb : Collaborators P A E) (c : Controller P A E) (now : Int),
      c.status.grid_available = true → c.grid_import_allowed = true →
      0 < (controller_update_measurements cb c now).measurements.load_power_total
        + (controller_update_measurements cb c now).measurements.irrigation_power
        + (controller_update_measurements cb c now).measurements.ev_charging_power
        - (controller_update_measurements cb c now).measurements.pv_power_total
        - (controller_update_measurements cb c now).measurements.battery_power →
      (controller_update_measurements cb c now).measurements.load_power_total
        + (controller_update_measurements cb c now).measurements.irrigation_power
        + (controller_update_measurements cb c now).measurements.ev_charging_power
        - (controller_update_measurements cb c now).measurements.pv_power_total
        - (controller_update_measurements cb c now).measurements.battery_power
        ≤ c.grid_import_limit →
      (controller_update_measurements cb c now).measurements.grid_power
        = (controller_update_measurements cb c now).measurements.load_power_total
        + (controller_update_measurements cb c now).measurements.irrigation_power
        + (controller_update_measurements cb c now).measurements.ev_charging_power
        - (controller_update_measurements cb c now).measurements.pv_power_total
        - (controller_update_measurements cb c now).measurements.battery_power) ∧
    (∀ (P A E : Type) (cb : Collaborators P A E) (c : Controller P A E) (now : Int),
      (controller_optimize_energy_flow cb c now).commands.battery_setpoint
        = c.measurements.battery_power) ∧
    (((battery_update_measurements batCap4000 mC9 100).2).battery_power = 4000 ∧
      ((battery_update_measurements batCap4000 mC9 100).2).battery_power
        ≠ ((battery_update_measurements batCap4000 mC9 100).2).battery_voltage
          * ((battery_update_measurements batCap4000 mC9 100).2).battery_current) := by
  have hbp := battery_update_measurements_battery_power batCap4000 mC9 100 (by decide)
  have hv := battery_update_measurements_battery_voltage batCap4000 mC9 100
  have hc := battery_update_measurements_battery_current batCap4000 mC9 100
  refine ⟨battery_update_measurements_battery_power,
    fun P A E => controller_update_measurements_grid_balance,
    fun P A E => controller_optimize_battery_setpoint, ?_, ?_⟩
  · rw [hbp]
    rfl
  · rw [hbp, hv, hc]
    with_unfolding_all decide

/-- Witness for C9: the general battery_power equation applied to the 4000 Wh
fixture. -/
theorem c9_witness :
    ((battery_update_measurements batCap4000 mC9 100).2).battery_power
      = batCap4000.capacity_remaining_wh :=
  c9_battery_power_is_capacity.1 batCap4000 mC9 100 (by decide)

/-! ## Claim C2 -/

/-- Helper: the main estimation pass never writes the battery_temp
measurement field. -/
theorem battery_calculate_soc_update_keeps_battery_temp (bat : Battery)
    (m : Measurements) (now : Int) :
    ((battery_calculate_soc_update bat m now).2).battery_temp = m.battery_temp := rfl

/-- Helper: the SOC estimator never writes the battery_temp measurement
field. -/
theorem battery_calculate_soc_keeps_battery_temp (bat : Battery)
    (m : Measurements) (now : Int) :
    ((battery_calculate_soc bat m now).2).battery_temp = m.battery_temp := by
  unfold battery_calculate_soc
  dsimp only
  split
  · rfl
  · exact battery_calculate_soc_update_keeps_battery_temp _ _ _

/-- Helper: the intake phase never writes the battery_temp measurement. -/
theorem battery_update_intake_battery_temp (bat : Battery) (m : Measurements)
    (now : Int) :
    ((battery_update_intake bat m now).2).battery_temp = m.battery_temp := by
  unfold battery_update_intake
  dsimp only
  split_ifs <;> rfl

/-- Helper: battery_update_measurements leaves the battery_temp measurement
unchanged (it only reads it, battery.c:165-167). -/
theorem battery_update_measurements_keeps_battery_temp (bat : Battery)
    (m : Measurements) (now : Int) :
    ((battery_update_measurements bat m now).2).battery_temp = m.battery_temp := by
  unfold battery_update_measurements
  dsimp only
  split <;>
  · rw [battery_calculate_soc_keeps_battery_temp]
    exact battery_update_intake_battery_temp bat m now

/-- Helper: the loads measurement update only writes the load power fields. -/
theorem loads_update_measurements_keeps_battery_temp (lm : LoadManager)
    (m : Measurements) (now : Int) :
    ((loads_update_measurements lm m now).2).battery_temp = m.battery_temp := rfl

/-- Helper: the measurement refresh leaves battery_temp unchanged whenever
the collaborator updates do (the embedded battery and loads updates never
write it; the grid block only writes grid fields). -/
theorem controller_update_measurements_keeps_battery_temp
    (cb : Collaborators P A E) (c : Controller P A E) (now : Int)
    (hp : ∀ p m, ((cb.pvUpdate p m).2).battery_temp = m.battery_temp)
    (ha : ∀ a m, ((cb.agUpdate a m).2).battery_temp = m.battery_temp)
    (he : ∀ e m, ((cb.evUpdate e m).2).battery_temp = m.battery_temp) :
    (controller_update_measurements cb c now).measurements.battery_temp
      = c.measurements.battery_temp := by
  unfold controller_update_measurements
  dsimp only
  split <;>
  · dsimp only
    rw [he, ha, loads_update_measurements_keeps_battery_temp,
      battery_update_measurements_keeps_battery_temp, hp]

/-- Helper: the measurement refresh never touches the configured safety
limit. -/
theorem controller_update_measurements_keeps_max_battery_temp
    (cb : Collaborators P A E) (c : Controller P A E) (now : Int) :
    (controller_update_measurements cb c now).max_battery_temp
      = c.max_battery_temp := rfl

/-- Helper: the safety check fails as soon as the battery temperature exceeds
the limit (controller.c:468-472). -/
theorem controller_check_safety_limits_temp (c : Controller P A E)
    (h : c.measurements.battery_temp > c.max_battery_temp) :
    controller_check_safety_limits c = false := by
  unfold controller_check_safety_limits
  rw [if_pos h]

/-- C2: when the safety check fails — in particular when the reported battery
temperature exceeds the 50 C limit, e.g. a 65 C sample — the cycle takes
the emergency path instead of the normal steps: it returns −1 (the
process is not terminated; the C has no exit call), every load-shed
command flag is set, island is commanded, grid_connect is cleared, and
the system mode becomes Emergency.  The collaborator hypotheses state
that the out-of-scope measurement updates do not fabricate a battery
temperature, which holds for the real PV/irrigation/EV collaborators. -/
theorem c2_safety_failure_takes_emergency_path (cb : Collaborators P A E)
    (c : Controller P A E) (now : Int)
    (hp : ∀ p m, ((cb.pvUpdate p m).2).battery_temp = m.battery_temp)
    (ha : ∀ a m, ((cb.agUpdate a m).2).battery_temp = m.battery_temp)
    (he : ∀ e m, ((cb.evUpdate e m).2).battery_temp = m.battery_temp)
    (helapsed : c.control_interval ≤ ((now - c.last_control_cycle : Int) : ℚ))
    (htemp : c.measurements.battery_temp > c.max_battery_temp) :
    (controller_run_cycle cb c now).1 = -1 ∧
    ((controller_run_cycle cb c now).2).commands.load_shed
      = List.replicate 12 true ∧
    ((controller_run_cycle cb c now).2).commands.island = true ∧
    ((controller_run_cycle cb c now).2).commands.grid_connect = false ∧
    ((controller_run_cycle cb c now).2).status.mode = SystemMode.emergency := by
  have hfalse : controller_check_safety_limits
      (controller_update_measurements cb (controller_cycle_tick c now) now) = false := by
    apply controller_check_safety_limits_temp
    rw [controller_update_measurements_keeps_battery_temp cb _ now hp ha he,
      controller_update_measurements_keeps_max_battery_temp]
    exact htemp
  unfold controller_run_cycle
  dsimp only
  rw [if_neg (not_lt.mpr helapsed), hfalse]
  exact ⟨rfl, rfl, rfl, rfl, rfl⟩

/-- Fixture: controller reporting a 65 C battery temperature against its 50 C
safety limit. -/
def ctrlHotBattery : Controller Unit Unit Unit :=
  { ctrlBase with measurements := { mRest with battery_temp := 65 } }

/-- Witness for C2: the 65 C fixture, 10 seconds after the last cycle with a
5-second interval, ends in the emergency state. -/
theorem c2_witness :
    (controller_run_cycle trivialCollaborators ctrlHotBattery 10).1 = -1 ∧
    ((controller_run_cycle trivialCollaborators ctrlHotBattery 10).2).commands.load_shed
      = List.replicate 12 true ∧
    ((controller_run_cycle trivialCollaborators ctrlHotBattery 10).2).commands.island = true ∧
    ((controller_run_cycle trivialCollaborators ctrlHotBattery 10).2).commands.grid_connect = false ∧
    ((controller_run_cycle trivialCollaborators ctrlHotBattery 10).2).status.mode
      = SystemMode.emergency :=
  c2_safety_failure_takes_emergency_path trivialCollaborators ctrlHotBattery 10
    (fun _ _ => rfl) (fun _ _ => rfl) (fun _ _ => rfl)
    (by with_unfolding_all decide) (by decide)

/-! ## Claim C1 -/

/-- The Critical-protection invariant: no Critical-priority load is in the
Shed state. -/
def CritOK (ls : List (LoadDefinition × LoadState)) : Prop :=
  ∀ x ∈ ls, x.1.priority = PRIORITY_CRITICAL → x.2 ≠ LoadState.shed

/-- Helper: the inner shedding pass preserves the Critical-protection
invariant — every load it marks SHED has passed loads_can_shed_load
(loads.c:105-113), which rejects Critical priority. -/
theorem shed_at_priority_critOK (prio : Int) (ap target : ℚ) (now : Int)
    (ls : List (LoadDefinition × LoadState)) (ps : ℚ) :
    CritOK ls → CritOK (shed_at_priority prio ap target now ls ps).1 := by
  induction ls generalizing ps with
  | nil => intro _ x hx; simp [shed_at_priority] at hx
  | cons x rest ih =>
    intro h
    have hrest : CritOK rest := fun y hy hp => h y (List.mem_cons_of_mem _ hy) hp
    unfold shed_at_priority
    dsimp only
    split
    · next he =>
      have hcan : loads_can_shed_load x.1 ap now = true := by
        unfold shed_eligible at he
        simp only [Bool.and_eq_true] at he
        exact he.2
      have hne : x.1.priority ≠ PRIORITY_CRITICAL :=
        loads_can_shed_load_ne_critical _ _ _ hcan
      split
      · intro y hy
        rcases List.mem_cons.mp hy with rfl | hy
        · exact fun hp => absurd hp hne
        · exact hrest y hy
      · intro y hy
        rcases List.mem_cons.mp hy with rfl | hy
        · exact fun hp => absurd hp hne
        · exact ih _ hrest y hy
    · intro y hy
      rcases List.mem_cons.mp hy with rfl | hy
      · exact h _ (List.mem_cons_self _ _)
      · exact ih _ hrest y hy

/-- Helper: the outer shedding loop preserves the Critical-protection
invariant. -/
theorem shed_loop_critOK (ap target : ℚ) (now : Int) (prios : List Int)
    (ls : List (LoadDefinition × LoadState)) (ps : ℚ) (changed : Bool) :
    CritOK ls → CritOK (shed_loop ap target now prios ls ps changed).1 := by
  induction prios generalizing ls ps changed with
  | nil => exact fun h => h
  | cons p prios ih =>
    intro h
    unfold shed_loop
    dsimp only
    split
    · exact shed_at_priority_critOK _ _ _ _ _ _ h
    · exact ih _ _ _ (shed_at_priority_critOK _ _ _ _ _ _ h)

/-- Helper: the inner restore pass preserves the Critical-protection
invariant — it only moves loads from SHED to ON. -/
theorem restore_at_priority_critOK (prio : Int) (ap : ℚ) (now : Int)
    (ls : List (LoadDefinition × LoadState)) (excess : ℚ) (rc : Nat) :
    CritOK ls → CritOK (restore_at_priority prio ap now ls excess rc).1 := by
  induction ls generalizing excess rc with
  | nil => intro _ x hx; simp [restore_at_priority] at hx
  | cons x rest ih =>
    intro h
    have hrest : CritOK rest := fun y hy hp => h y (List.mem_cons_of_mem _ hy) hp
    unfold restore_at_priority
    dsimp only
    split
    · split
      · intro y hy
        rcases List.mem_cons.mp hy with rfl | hy
        · exact fun _ hc => LoadState.noConfusion hc
        · exact ih _ _ hrest y hy
      · intro y hy
        rcases List.mem_cons.mp hy with rfl | hy
        · exact h _ (List.mem_cons_self _ _)
        · exact ih _ _ hrest y hy
    · intro y hy
      rcases List.mem_cons.mp hy with rfl | hy
      · exact h _ (List.mem_cons_self _ _)
      · exact ih _ _ hrest y hy

/-- Helper: the outer restore loop preserves the Critical-protection
invariant. -/
theorem restore_loop_critOK (ap : ℚ) (now : Int) (prios : List Int)
    (ls : List (LoadDefinition × LoadState)) (excess : ℚ) (rc : Nat) :
    CritOK ls → CritOK (restore_loop ap now prios ls excess rc).1 := by
  induction prios generalizing ls excess rc with
  | nil => exact fun h => h
  | cons p prios ih =>
    intro h
    unfold restore_loop
    dsimp only
    exact ih _ _ _ (restore_at_priority_critOK _ _ _ _ _ _ h)

/-- Helper: loads_restore_shed preserves the Critical-protection invariant. -/
theorem loads_restore_shed_critOK (lm : LoadManager) (ap : ℚ) (now : Int) :
    CritOK lm.loads → CritOK (loads_restore_shed lm ap now).loads := by
  intro h
  unfold loads_restore_shed
  dsimp only
  split
  · exact restore_loop_critOK _ _ _ _ _ _ h
  · exact restore_loop_critOK _ _ _ _ _ _ h

/-- Helper: a successful alternate search returns an index past the running
counter whose load passes loads_can_shed_load with zero available power
(loads.c:209-226). -/
theorem find_alternate_can_shed (now : Int) (skip : Nat) :
    ∀ (k : Nat) (ls : List (LoadDefinition × LoadState)) (j : Nat),
      find_alternate now skip k ls = some j →
      k ≤ j ∧ ∃ y, ls[j - k]? = some y ∧ loads_can_shed_load y.1 0 now = true := by
  intro k ls
  induction ls generalizing k with
  | nil => intro j h; simp [find_alternate] at h
  | cons x rest ih =>
    intro j h
    unfold find_alternate at h
    split at h
    · next hc =>
      cases h
      refine ⟨Nat.le_refl _, x, ?_, ?_⟩
      · simp
      · simp only [Bool.and_eq_true] at hc
        exact hc.2
    · obtain ⟨hk, y, hy, hcan⟩ := ih (k + 1) j h
      refine ⟨by omega, y, ?_, hcan⟩
      have hjk : j - k = (j - (k + 1)) + 1 := by omega
      rw [hjk, List.getElem?_cons_succ]
      exact hy

/-- Helper: rotation preserves the Critical-protection invariant — the
restored slot becomes ON, and the alternate slot it sheds instead passed
loads_can_shed_load, hence is not Critical. -/
theorem loads_rotate_shedding_critOK (lm : LoadManager) (now : Int) :
    CritOK lm.loads → CritOK (loads_rotate_shedding lm now).loads := by
  intro h
  unfold loads_rotate_shedding
  split
  · exact h
  · rename_i i hfind
    split
    · exact h
    · rename_i x hget
      dsimp only
      have hls1 : CritOK (lm.loads.set i
          ({ x.1 with current_state := true, last_state_change := now },
            LoadState.on)) := by
        intro y hy
        rcases List.mem_or_eq_of_mem_set hy with hy | rfl
        · exact h y hy
        · exact fun _ hc => LoadState.noConfusion hc
      split
      · exact hls1
      · rename_i j hfa
        split
        · exact hls1
        · rename_i y hget2
          intro z hz
          rcases List.mem_or_eq_of_mem_set hz with hz | rfl
          · exact hls1 z hz
          · intro hp
            obtain ⟨-, y', hy', hcan⟩ := find_alternate_can_shed now i 0 _ j hfa
            rw [Nat.sub_zero, hget2] at hy'
            obtain rfl := Option.some.inj hy'
            exact absurd hp (loads_can_shed_load_ne_critical y.1 0 now hcan)

/-- Helper: one call of the shedding manager preserves the
Critical-protection invariant, whichever of its shed / restore / rotate
paths fires (loads.c:84-150). -/
theorem loads_manage_shedding_critOK (lm : LoadManager) (ap tl soc : ℚ)
    (g : Bool) (now : Int) (h : CritOK lm.loads) :
    CritOK ((loads_manage_shedding lm ap tl soc g now).1).loads := by
  unfold loads_manage_shedding
  dsimp only
  split_ifs <;>
    first
      | exact h
      | exact shed_loop_critOK _ _ _ _ _ _ _ h
      | exact loads_rotate_shedding_critOK _ _ (shed_loop_critOK _ _ _ _ _ _ _ h)
      | exact loads_restore_shed_critOK _ _ _ h
      | exact loads_rotate_shedding_critOK _ _ (loads_restore_shed_critOK _ _ _ h)
      | exact loads_rotate_shedding_critOK _ _ h

/-- Helper: a freshly initialised manager satisfies the Critical-protection
invariant — every copied load starts ON (loads.c:24-33). -/
theorem loads_init_critOK (cfg : List LoadDefinition) (now : Int) :
    CritOK (loads_init cfg now).loads := by
  intro x hx
  unfold loads_init at hx
  dsimp only at hx
  obtain ⟨ld, -, rfl⟩ := List.mem_map.mp hx
  exact fun _ hc => LoadState.noConfusion hc

/-- The load-manager states reachable through the Load Shedding Engine:
initialisation followed by any sequence of shedding-manager calls (which
internally shed, restore and rotate) and of direct restore and rotation
calls, with arbitrary inputs. -/
inductive LoadsReachable : LoadManager → Prop where
  | init (cfg : List LoadDefinition) (now : Int) :
      LoadsReachable (loads_init cfg now)
  | manage (lm : LoadManager) (ap tl soc : ℚ) (g : Bool) (now : Int) :
      LoadsReachable lm →
      LoadsReachable (loads_manage_shedding lm ap tl soc g now).1
  | restore (lm : LoadManager) (ap : ℚ) (now : Int) :
      LoadsReachable lm → LoadsReachable (loads_restore_shed lm ap now)
  | rotate (lm : LoadManager) (now : Int) :
      LoadsReachable lm → LoadsReachable (loads_rotate_shedding lm now)

/-- C1: in every load-manager state reachable through the Load Shedding
Engine — initialisation followed by any sequence of shedding, restore and
rotation operations with arbitrary deficits, available power, SOC and grid
availability — no Critical-priority load is ever in the Shed state. -/
theorem c1_critical_never_shed (lm : LoadManager) (h : LoadsReachable lm) :
    ∀ x ∈ lm.loads, x.1.priority = PRIORITY_CRITICAL → x.2 ≠ LoadState.shed := by
  induction h with
  | init cfg now => exact loads_init_critOK cfg now
  | manage lm ap tl soc g now _ ih =>
    exact loads_manage_shedding_critOK lm ap tl soc g now ih
  | restore lm ap now _ ih => exact loads_restore_shed_critOK lm ap now ih
  | rotate lm now _ ih => exact loads_rotate_shedding_critOK lm now ih

/-- Witness for C1: after initialising with a Critical and a NonEssential
load and running one shedding-manager cycle under a 501 W deficit, the
shed-marked copy of the Critical load is not in the load list. -/
theorem c1_witness :
    ({ crit500 with current_state := false, last_state_change := 10 },
        LoadState.shed)
      ∉ ((loads_manage_shedding (loads_init [crit500, ne200] 0)
          20 521 60 false 10).1).loads :=
  fun hmem =>
    c1_critical_never_shed _
      (LoadsReachable.manage _ 20 521 60 false 10
        (LoadsReachable.init [crit500, ne200] 0))
      _ hmem rfl rfl

end Solarize
